import Mathlib

/-!
Smash Master: gameplay simulation, targeting and collision.

A shallow embedding of `src/main.cpp` (the simulation core: `initGame`,
`spawnEnemy`, `triggerPunch`, `triggerImpact`, `checkCollision`, `update` and
the event handling of `main`) together with theorems about it.

Conventions of the embedding.

* `float` values are rationals; `int` and `long` values are integers without
  overflow.  The cast `(int)f` truncates toward zero (`truncToInt`), integer
  `/` and `%` are `Int.tdiv` and `Int.tmod`.  The source rounds the result of
  every float operation.  Where a rounded value is compared with a bound or
  cast to an integer and the rounding decides the outcome, the embedding
  rounds as the source does: in `dist`, in the bounds that a value of `dist`
  is compared with (`lockStep`, `damageCheck`, `gloveHit`) and in the points
  of a kill (`killPoints`), every operation is followed by the rounding
  `roundF` (to `float`) or `roundD` (to `double`) of the environment, and
  `std::sqrt` is the `sqrtF` of the environment.  Elsewhere (motion, timers,
  effects, the kill box) arithmetic is exact.
* `std::sin`, `std::cos`, `std::log`, `rand()` and `RAND_MAX` are supplied by
  an environment `Env`; the general theorems hold for all environments (the
  one about `calculateFlightFrames` for those whose `log` is within 1/50 of
  the natural logarithm, `LogAccurate`), the concrete evaluations use sample
  environments, which take `sin` to be 0 on inputs where the sway plays no
  role and to be its Taylor polynomial where it does.  The world carries the
  number of `rand()` calls made so far (`rngCalls`), which is the state of
  the C library generator.
* The general theorems hold for every rounding and every square root that
  the environment supplies; of the rounding they use only that it keeps a
  value that is not negative from becoming negative (`Env.roundF_nonneg`).
  The environment `envIEEE` rounds to nearest, ties to even, in binary32 and
  binary64 (`toFloat`, `toDouble`) with a correctly rounded square root
  (`sqrtDouble`), all on integer arithmetic; the other sample environments
  do not round and take the square root on a grid of `2 ^ -12`
  (`sqrtGrid`), which is enough where no comparison is close.
* The globals of the program are the fields of `World`.  `lockedEnemy`, a
  pointer into the enemy vector, is the index of the element it points to.
* `impactCalls` is a ghost field, absent from the source: it counts the
  executions of `triggerImpact`, so that "fires exactly once" can be stated.
* Fields which the source leaves uninitialised when it creates a particle are
  held at `0`; no modelled code reads them.
-/

namespace SmashMaster

/-! ## Data model -/

/-- External numeric routines of the C and C++ runtime. -/
structure Env where
  /-- The function `std::sin`. -/
  sinF : ℚ → ℚ
  /-- The function `std::cos`. -/
  cosF : ℚ → ℚ
  /-- The function `std::log`. -/
  logF : ℚ → ℚ
  /-- The function `std::sqrt` on `double`. -/
  sqrtF : ℚ → ℚ
  /-- The rounding of the exact result of an operation to `float`. -/
  roundF : ℚ → ℚ
  /-- The rounding of the exact result of an operation to `double`. -/
  roundD : ℚ → ℚ
  /-- The value returned by the call number `k` (from 0) of `rand()`. -/
  rand : ℕ → ℕ
  /-- The constant `RAND_MAX`. -/
  RAND_MAX : ℕ
  /-- Rounding to `float` does not make a non-negative value negative. -/
  roundF_nonneg : ∀ q : ℚ, 0 ≤ q → 0 ≤ roundF q

structure Vec2 where
  x : ℚ
  y : ℚ
deriving DecidableEq

structure Color where
  r : ℕ
  g : ℕ
  b : ℕ
  a : ℕ
deriving DecidableEq

def COL_RED_500 : Color := ⟨239, 68, 68, 255⟩
def COL_YELLOW_400 : Color := ⟨250, 204, 21, 255⟩
def COL_BLUE_500 : Color := ⟨59, 130, 246, 255⟩
def COL_WHITE : Color := ⟨255, 255, 255, 255⟩
def COL_ORANGE : Color := ⟨249, 115, 22, 255⟩
def COL_PURPLE : Color := ⟨147, 51, 234, 255⟩

def PI : ℚ := 314159265359 / 100000000000
def WINDUP_FRAMES : ℤ := 8
def SMASH_SPEED : ℚ := 6 / 10

inductive EnemyType where
  | CRATE
  | SPIKE
  | HEX
deriving DecidableEq

structure Enemy where
  x : ℚ
  y : ℚ
  size : ℚ
  speed : ℚ
  vx : ℚ
  swayOffset : ℚ
  swaySpeed : ℚ
  swayAmplitude : ℚ
  rotation : ℚ
  rotSpeed : ℚ
  type : EnemyType
  color : Color
  active : Bool
deriving DecidableEq

structure Particle where
  x : ℚ
  y : ℚ
  vx : ℚ
  vy : ℚ
  life : ℚ
  size : ℚ
  color : Color
  decay : ℚ
  lightningPath : List Vec2
  type : ℤ
  w : ℚ
  h : ℚ
  rotation : ℚ
  vRot : ℚ
deriving DecidableEq

structure FloatingText where
  x : ℚ
  y : ℚ
  value : ℤ
  vy : ℚ
  life : ℚ
  color : Color
deriving DecidableEq

structure Explosion where
  x : ℚ
  y : ℚ
  life : ℚ
  rotation : ℚ
  scale : ℚ
deriving DecidableEq

structure Shockwave where
  x : ℚ
  y : ℚ
  radius : ℚ
  maxRadius : ℚ
  alpha : ℚ
  width : ℚ
  color : Color
deriving DecidableEq

inductive GameState where
  | MENU
  | PLAYING
  | GAME_OVER
deriving DecidableEq

structure Player where
  x : ℚ
  y : ℚ
  width : ℚ
  height : ℚ
  color : Color
deriving DecidableEq

structure Mouse where
  x : ℤ
  y : ℤ
  clicked : Bool
deriving DecidableEq

inductive PunchState where
  | IDLE
  | WINDUP
  | SMASH
  | HOLD
  | RECOVER
deriving DecidableEq

/-- The global variables of the program. -/
structure World where
  WINDOW_WIDTH : ℤ
  WINDOW_HEIGHT : ℤ
  gameState : GameState
  score : ℤ
  health : ℚ
  level : ℤ
  frames : ℤ
  shakeIntensity : ℚ
  flashIntensity : ℚ
  camZoom : ℚ
  player : Player
  mouse : Mouse
  leftArm : Vec2
  rightArm : Vec2
  punchState : PunchState
  punchTimer : ℤ
  punchTarget : Vec2
  lockedEnemy : Option ℕ
  hitStop : ℤ
  hasSmashImpacted : Bool
  enemies : List Enemy
  particles : List Particle
  shockwaves : List Shockwave
  explosions : List Explosion
  floatingTexts : List FloatingText
  /-- Number of `rand()` calls made so far. -/
  rngCalls : ℕ
  /-- Ghost: number of executions of `triggerImpact` so far. -/
  impactCalls : ℕ
deriving DecidableEq

/-- The values of the globals when the program starts (static initialisers). -/
def initialWorld : World where
  WINDOW_WIDTH := 1024
  WINDOW_HEIGHT := 768
  gameState := GameState.MENU
  score := 0
  health := 100
  level := 1
  frames := 0
  shakeIntensity := 0
  flashIntensity := 0
  camZoom := 1
  player := ⟨0, 0, 40, 60, COL_BLUE_500⟩
  mouse := ⟨0, 0, false⟩
  leftArm := ⟨0, 0⟩
  rightArm := ⟨0, 0⟩
  punchState := PunchState.IDLE
  punchTimer := 0
  punchTarget := ⟨0, 0⟩
  lockedEnemy := none
  hitStop := 0
  hasSmashImpacted := false
  enemies := []
  particles := []
  shockwaves := []
  explosions := []
  floatingTexts := []
  rngCalls := 0
  impactCalls := 0

/-! ## Utilities -/

/-- The cast `(int)f` of a float: truncation toward zero. -/
def truncToInt (q : ℚ) : ℤ := if 0 ≤ q then ⌊q⌋ else ⌈q⌉

/-- The function `calculateFlightFrames(speed, threshold)`. -/
def calculateFlightFrames (env : Env) (speed : ℚ) (threshold : ℚ) : ℤ :=
  truncToInt (⌈env.logF threshold / env.logF (1 - speed)⌉ : ℤ)

/-- The function `randomFloat(min, max)` when it makes the call number `k` of `rand()`. -/
def randomFloat (env : Env) (k : ℕ) (min max : ℚ) : ℚ :=
  min + (env.rand k : ℚ) / ((env.RAND_MAX : ℚ) / (max - min))

/-- The function `dist(a, b)`, which returns
`std::sqrt(std::pow(a.x - b.x, 2) + std::pow(a.y - b.y, 2))` as a `float`.  The
two differences are `float` operations; `std::pow(_, 2)` promotes its
arguments to `double`, so the squares, their sum and `std::sqrt` are on
`double`; the result is converted to `float`. -/
def dist (env : Env) (a b : Vec2) : ℚ :=
  env.roundF (env.sqrtF (env.roundD
    (env.roundD (env.roundF (a.x - b.x) ^ 2) + env.roundD (env.roundF (a.y - b.y) ^ 2))))

/-- The value `(int)(size * scale * 2)` of `checkCollision`: two `float`
multiplications and the cast. -/
def killPoints (env : Env) (size scale : ℚ) : ℤ :=
  truncToInt (env.roundF (env.roundF (size * scale) * 2))

/-- The level scale `1.0f + (level - 1) * 0.5f`. -/
def levelScale (level : ℤ) : ℚ := 1 + ((level - 1 : ℤ) : ℚ) * (1 / 2)

/-! ## initGame and spawnEnemy -/

def initGame (w : World) : World :=
  { w with
    score := 0
    health := 100
    level := 1
    enemies := []
    particles := []
    shockwaves := []
    explosions := []
    floatingTexts := []
    player := { w.player with x := (w.WINDOW_WIDTH : ℚ) / 2, y := (w.WINDOW_HEIGHT : ℚ) - 100 }
    punchState := PunchState.IDLE
    frames := 0 }

def enemyTypeOfRoll (typeRoll : ℕ) : EnemyType :=
  if typeRoll = 0 then EnemyType.CRATE
  else if typeRoll = 1 then EnemyType.SPIKE
  else EnemyType.HEX

def enemyColor (t : EnemyType) : Color :=
  match t with
  | EnemyType.CRATE => ⟨217, 119, 6, 255⟩
  | EnemyType.SPIKE => ⟨239, 68, 68, 255⟩
  | EnemyType.HEX => ⟨139, 92, 246, 255⟩

def spawnEnemy (env : Env) (w : World) : World :=
  let k := w.rngCalls
  let size := randomFloat env k 30 70
  let type := enemyTypeOfRoll (env.rand (k + 1) % 3)
  let speedBonus := min (5 : ℚ) ((w.score : ℚ) / 3000)
  let e : Enemy :=
    { x := randomFloat env (k + 2) size ((w.WINDOW_WIDTH : ℚ) - size)
      y := -size
      size := size
      speed := randomFloat env (k + 3) 2 4 + speedBonus
      vx := (randomFloat env (k + 4) 0 1 - 1 / 2) * 4
      swayOffset := randomFloat env (k + 5) 0 (PI * 2)
      swaySpeed := 1 / 20 + randomFloat env (k + 6) 0 (1 / 20)
      rotation := 0
      rotSpeed := (randomFloat env (k + 7) 0 1 - 1 / 2) * (1 / 10)
      swayAmplitude := 7
      type := type
      color := enemyColor type
      active := true }
  { w with enemies := w.enemies ++ [e], rngCalls := k + 8 }

/-! ## Particle creation -/

/-- The loop of `createParticles`: `count` particles appended to `ps`, three
`rand()` calls each, starting at call number `k`. -/
def createParticlesLoop (env : Env) (x y : ℚ) (c : Color) (scale : ℚ) :
    ℕ → List Particle → ℕ → List Particle × ℕ
  | 0, ps, k => (ps, k)
  | n + 1, ps, k =>
    let angle := randomFloat env k 0 (PI * 2)
    let speed := randomFloat env (k + 1) 1 4 * scale
    let p : Particle :=
      { x := x, y := y
        vx := env.cosF angle * speed
        vy := env.sinF angle * speed
        life := 1
        color := c
        size := randomFloat env (k + 2) 2 7
        decay := 3 / 100
        type := 0
        lightningPath := [], w := 0, h := 0, rotation := 0, vRot := 0 }
    createParticlesLoop env x y c scale n (ps ++ [p]) (k + 3)

def createParticles (env : Env) (x y : ℚ) (c : Color) (count : ℤ) (scale : ℚ) (w : World) :
    World :=
  let r := createParticlesLoop env x y c scale count.toNat w.particles w.rngCalls
  { w with particles := r.1, rngCalls := r.2 }

/-- The loop of `createDebris`: six `rand()` calls for each particle. -/
def createDebrisLoop (env : Env) (x y : ℚ) (c : Color) (scale : ℚ) :
    ℕ → List Particle → ℕ → List Particle × ℕ
  | 0, ps, k => (ps, k)
  | n + 1, ps, k =>
    let angle := randomFloat env k 0 (PI * 2)
    let force := randomFloat env (k + 1) 5 15 * scale
    let p : Particle :=
      { x := x, y := y
        vx := env.cosF angle * force
        vy := env.sinF angle * force
        rotation := randomFloat env (k + 2) 0 PI
        vRot := (randomFloat env (k + 3) 0 1 - 1 / 2) * (8 / 10)
        life := 1
        color := c
        w := randomFloat env (k + 4) 4 16 * scale
        h := randomFloat env (k + 5) 4 16 * scale
        type := 2
        lightningPath := [], size := 0, decay := 0 }
    createDebrisLoop env x y c scale n (ps ++ [p]) (k + 6)

def createDebris (env : Env) (x y : ℚ) (c : Color) (count : ℤ) (scale : ℚ) (w : World) :
    World :=
  let r := createDebrisLoop env x y c scale count.toNat w.particles w.rngCalls
  { w with particles := r.1, rngCalls := r.2 }

/-! ## Enemy motion and the punch trigger -/

/-- The motion part of the body of the enemy loop of `update`: fall, sway at
frame `frames`, wall clamp with drift flip (two independent `if`s). -/
def moveEnemy (env : Env) (frames : ℤ) (W : ℤ) (e : Enemy) : Enemy :=
  let e := { e with y := e.y + e.speed }
  let currentWind := env.sinF ((frames : ℚ) * e.swaySpeed + e.swayOffset) * e.swayAmplitude
  let e := { e with x := e.x + (e.vx + currentWind) }
  let e := if e.x < e.size / 2 then { e with x := e.size / 2, vx := e.vx * -1 } else e
  let e := if e.x > (W : ℚ) - e.size / 2 then { e with x := (W : ℚ) - e.size / 2, vx := e.vx * -1 } else e
  e

/-- The variables `simX`, `simY`, `simVx` of the prediction loop. -/
structure Sim where
  simX : ℚ
  simY : ℚ
  simVx : ℚ
deriving DecidableEq

/-- One iteration of the prediction loop of `triggerPunch`, at `simFrame`. -/
def predictStep (env : Env) (e : Enemy) (W : ℤ) (simFrame : ℤ) (s : Sim) : Sim :=
  let simY := s.simY + e.speed
  let simWind := env.sinF ((simFrame : ℚ) * e.swaySpeed + e.swayOffset) * e.swayAmplitude
  let simX := s.simX + (s.simVx + simWind)
  let margin := e.size / 2
  if simX < margin then ⟨margin, simY, s.simVx * -1⟩
  else if simX > (W : ℚ) - margin then ⟨(W : ℚ) - margin, simY, s.simVx * -1⟩
  else ⟨simX, simY, s.simVx⟩

/-- The prediction loop `for (i = ...; i <= totalPredictionFrames; i++)` with
`n` iterations left and loop variable `i`. -/
def predictLoop (env : Env) (e : Enemy) (W : ℤ) (frames : ℤ) : ℕ → ℤ → Sim → Sim
  | 0, _, s => s
  | n + 1, i, s => predictLoop env e W frames n (i + 1) (predictStep env e W (frames + i) s)

/-- The value of `totalPredictionFrames` in `triggerPunch`. -/
def totalPredictionFrames (env : Env) : ℤ :=
  WINDUP_FRAMES + calculateFlightFrames env SMASH_SPEED (5 / 100)

/-- One iteration of the lock-on loop of `triggerPunch` for the enemy at index
`i`; the accumulator is `closestDist` and `lockedEnemy`. -/
def lockStep (env : Env) (m : Vec2) (acc : ℚ × Option ℕ) (i : ℕ) (e : Enemy) : ℚ × Option ℕ :=
  if !e.active then acc
  else if dist env m ⟨e.x, e.y⟩ < env.roundF (e.size + 100) ∧ dist env m ⟨e.x, e.y⟩ < acc.1 then
    (dist env m ⟨e.x, e.y⟩, some i)
  else acc

def lockLoop (env : Env) (m : Vec2) : List Enemy → ℕ → ℚ × Option ℕ → ℚ × Option ℕ
  | [], _, acc => acc
  | e :: es, i, acc => lockLoop env m es (i + 1) (lockStep env m acc i e)

/-- The pointer position as a point. -/
def mousePos (w : World) : Vec2 := ⟨(w.mouse.x : ℚ), (w.mouse.y : ℚ)⟩

/-- The enemy locked by `triggerPunch` on `w`, as an index into `w.enemies`. -/
def lockOn (env : Env) (w : World) : Option ℕ :=
  (lockLoop env (mousePos w) w.enemies 0 (9999, none)).2

/-- The end point of the prediction loop for the locked enemy `e`. -/
def predictTarget (env : Env) (frames : ℤ) (W : ℤ) (e : Enemy) : Vec2 :=
  let s := predictLoop env e W frames (totalPredictionFrames env).toNat 1 ⟨e.x, e.y, e.vx⟩
  ⟨s.simX, s.simY⟩

def triggerPunch (env : Env) (w : World) : World :=
  let w := { w with
    punchState := PunchState.WINDUP
    punchTimer := 0
    hasSmashImpacted := false
    lockedEnemy := lockOn env w }
  match w.lockedEnemy with
  | some i =>
    match w.enemies[i]? with
    | some e => { w with punchTarget := predictTarget env w.frames w.WINDOW_WIDTH e }
    | none => w
  | none => { w with punchTarget := mousePos w }

/-! ## Impact and collision -/

/-- The spark loop of `triggerImpact`: two `rand()` calls for each spark. -/
def sparkLoop (env : Env) (x y : ℚ) (scale : ℚ) : ℕ → List Particle → ℕ → List Particle × ℕ
  | 0, ps, k => (ps, k)
  | n + 1, ps, k =>
    let angle := randomFloat env k 0 (PI * 2)
    let spd := randomFloat env (k + 1) 10 25
    let p : Particle :=
      { x := x, y := y
        vx := env.cosF angle * spd
        vy := env.sinF angle * spd
        life := 1
        type := 3
        color := COL_WHITE
        w := 3 * scale
        lightningPath := [], size := 0, decay := 0, h := 0, rotation := 0, vRot := 0 }
    sparkLoop env x y scale n (ps ++ [p]) (k + 2)

def triggerImpact (env : Env) (x y : ℚ) (scale : ℚ) (w : World) : World :=
  let w := { w with impactCalls := w.impactCalls + 1 }
  if w.level = 1 then { w with shakeIntensity := 10 }
  else if w.level = 2 then
    let w := { w with shockwaves := w.shockwaves ++ [Shockwave.mk x y 20 15 1 30 COL_ORANGE] }
    let w := createParticles env x y COL_ORANGE 20 1 w
    { w with shakeIntensity := 25 }
  else if w.level ≥ 3 then
    let w := { w with shockwaves := w.shockwaves ++ [Shockwave.mk x y 30 25 1 10 COL_YELLOW_400] }
    let r := sparkLoop env x y scale 10 w.particles w.rngCalls
    let w := { w with particles := r.1, rngCalls := r.2 }
    let w := { w with shakeIntensity := 40, camZoom := 14 / 10 }
    if w.level = 4 then
      { w with
        flashIntensity := 8 / 10
        camZoom := 16 / 10
        shockwaves := w.shockwaves ++ [Shockwave.mk x y 10 40 1 20 COL_PURPLE] }
    else w
  else w

/-- A loop `for (auto& e : enemies)` whose body may change the element and
some state `σ` that does not contain the collection. -/
def forEnemies {σ : Type} (body : σ → Enemy → Enemy × σ) : List Enemy → σ → List Enemy × σ
  | [], s => ([], s)
  | e :: es, s =>
    let r := body s e
    let rs := forEnemies body es r.2
    (r.1 :: rs.1, rs.2)

/-- The test of the kill box in `checkCollision`. -/
def inKillBox (centerX y scale : ℚ) (e : Enemy) : Bool :=
  decide (e.x > centerX - 44 * scale ∧ e.x < centerX + 44 * scale ∧
    e.y > y - 80 * scale ∧ e.y < y + 80 * scale)

/-- The body of the enemy loop of `checkCollision`; the state is the world
together with `hitCount`. -/
def collideEnemy (env : Env) (centerX y scale : ℚ) (acc : World × ℤ) (e : Enemy) :
    Enemy × (World × ℤ) :=
  if !e.active then (e, acc)
  else if inKillBox centerX y scale e then
    let w := acc.1
    let pts := killPoints env e.size scale
    let w := { w with score := w.score + pts }
    let w := createDebris env e.x e.y e.color (8 + w.level * 4) scale w
    let w := { w with floatingTexts := w.floatingTexts ++ [FloatingText.mk e.x e.y pts (-2) 1 COL_YELLOW_400] }
    let w := if w.level ≥ 2 then { w with hitStop := 4 } else w
    ({ e with active := false }, (w, acc.2 + 1))
  else (e, acc)

/-- The glove-clap part of `checkCollision`: the impact effect, guarded by the
one-shot flag. -/
def clapStep (env : Env) (centerX y scale distBetweenGloves gloveReach : ℚ) (w : World) : World :=
  if distBetweenGloves ≤ gloveReach * 2 then
    if !w.hasSmashImpacted then
      { triggerImpact env centerX y scale w with hasSmashImpacted := true }
    else w
  else w

/-- The enemy loop of `checkCollision` and the shake that follows it. -/
def killSweep (env : Env) (centerX y scale : ℚ) (w : World) : World :=
  let r := forEnemies (collideEnemy env centerX y scale) w.enemies (w, 0)
  let w := { r.2.1 with enemies := r.1 }
  let hitCount := r.2.2
  if hitCount > 0 then { w with shakeIntensity := w.shakeIntensity + 5 * (hitCount : ℚ) } else w

def checkCollision (env : Env) (x1 x2 y : ℚ) (w : World) : World :=
  let centerX := (x1 + x2) / 2
  let distBetweenGloves := |x2 - x1|
  let scale := levelScale w.level
  let gloveReach := 44 * scale
  killSweep env centerX y scale (clapStep env centerX y scale distBetweenGloves gloveReach w)

/-! ## update -/

/-- Decay of shake, flash and camera zoom at the start of a tick. -/
def decayEffects (w : World) : World :=
  let w := if w.shakeIntensity > 0 then { w with shakeIntensity := w.shakeIntensity * (85 / 100) } else w
  let w := if w.shakeIntensity < 1 / 2 then { w with shakeIntensity := 0 } else w
  let w := if w.flashIntensity > 0 then { w with flashIntensity := w.flashIntensity - 1 / 10 } else w
  let w := if w.camZoom > 1 then { w with camZoom := w.camZoom - 5 / 100 } else w
  let w := if w.camZoom < 1 then { w with camZoom := 1 } else w
  w

/-- The level recomputation of `update`. -/
def levelStep (w : World) : World :=
  let newLevel := min 4 (Int.tdiv w.score 1000 + 1)
  if newLevel > w.level then
    { w with level := newLevel, shakeIntensity := 30, flashIntensity := 1 / 2 }
  else w

/-- The player follows the pointer, clamped to the field. -/
def movePlayer (w : World) : World :=
  let w := { w with player := { w.player with x := (w.mouse.x : ℚ) } }
  let w := if w.player.x < 20 then { w with player := { w.player with x := 20 } } else w
  let w :=
    if w.player.x > ((w.WINDOW_WIDTH - 20 : ℤ) : ℚ) then
      { w with player := { w.player with x := ((w.WINDOW_WIDTH - 20 : ℤ) : ℚ) } }
    else w
  w

/-- The value of `spawnRate` in `update`. -/
def spawnRate (score : ℤ) : ℤ := max 10 (60 - Int.tdiv score 100)

def spawnStep (env : Env) (w : World) : World :=
  if Int.tmod w.frames (spawnRate w.score) = 0 then spawnEnemy env w else w

/-- The damage check of the enemy loop, on the moved enemy. -/
def damageCheck (env : Env) (w : World) (e : Enemy) : Enemy × World :=
  if dist env ⟨e.x, e.y⟩ ⟨w.player.x, env.roundF (w.player.y - w.player.height)⟩
      < env.roundF (env.roundF (e.size / 2) + env.roundF (w.player.width / 2)) then
    let w := { w with health := w.health - 20 }
    let w := createDebris env e.x e.y e.color 10 1 w
    let w := { w with shakeIntensity := 15, flashIntensity := 4 / 10 }
    let w := if w.health ≤ 0 then { w with gameState := GameState.GAME_OVER } else w
    ({ e with active := false }, w)
  else (e, w)

/-- The last statement of the enemy loop: leaving through the floor. -/
def floorCheck (w : World) (e : Enemy) : Enemy :=
  if e.y > (w.WINDOW_HEIGHT : ℚ) + e.size / 2 then { e with active := false } else e

/-- The two glove tests `hitLeft || hitRight` of the block check. -/
def gloveHit (env : Env) (w : World) (e : Enemy) : Bool :=
  let currentScale := levelScale w.level
  let gloveRadius := env.roundF (30 * currentScale)
  let hitLeft := decide (dist env ⟨e.x, e.y⟩ ⟨w.leftArm.x, w.leftArm.y⟩
    < env.roundF (env.roundF (e.size / 2) + gloveRadius))
  let hitRight := decide (dist env ⟨e.x, e.y⟩ ⟨w.rightArm.x, w.rightArm.y⟩
    < env.roundF (env.roundF (e.size / 2) + gloveRadius))
  hitLeft || hitRight

/-- The body of the enemy loop of `update`. -/
def updateEnemy (env : Env) (w : World) (e : Enemy) : Enemy × World :=
  if !e.active then (e, w)
  else
    let e := moveEnemy env w.frames w.WINDOW_WIDTH e
    let e := { e with rotation := e.rotation + e.rotSpeed }
    let r := damageCheck env w e
    let e := r.1
    let w := r.2
    let canBlock := decide (w.punchState = PunchState.IDLE)
    if canBlock && gloveHit env w e then
      let w := createParticles env e.x e.y ⟨220, 220, 220, 255⟩ 10 (12 / 10) w
      ({ e with active := false }, { w with shakeIntensity := 5, score := w.score + 10 })
    else (floorCheck w e, w)

def enemyPass (env : Env) (w : World) : World :=
  let r := forEnemies (updateEnemy env) w.enemies w
  { r.2 with enemies := r.1 }

/-- The erase and remove_if of the enemies that are not active. -/
def compactEnemies (w : World) : World :=
  { w with enemies := w.enemies.filter (fun e => e.active) }

def updateParticle (W H : ℤ) (p : Particle) : Particle :=
  if p.type = 2 then
    let p := { p with x := p.x + p.vx, y := p.y + p.vy }
    let p := { p with rotation := p.rotation + p.vRot }
    let p := { p with vy := p.vy + 4 / 10 }
    let p := { p with life := p.life - 15 / 1000 }
    if p.y > (H : ℚ) ∨ p.y < 0 ∨ p.x > (W : ℚ) ∨ p.x < 0 then { p with life := 0 } else p
  else if p.type = 3 then
    let p := { p with x := p.x + p.vx, y := p.y + p.vy }
    { p with life := p.life - 5 / 100 }
  else
    let p := { p with x := p.x + p.vx, y := p.y + p.vy }
    { p with life := p.life - p.decay }

def particlePass (w : World) : World :=
  { w with
    particles :=
      (w.particles.map (updateParticle w.WINDOW_WIDTH w.WINDOW_HEIGHT)).filter
        (fun p => !decide (p.life ≤ 0)) }

def updateShockwave (s : Shockwave) : Shockwave :=
  { s with radius := s.radius + s.maxRadius, width := s.width * (8 / 10), alpha := s.alpha - 5 / 100 }

def shockwavePass (w : World) : World :=
  { w with shockwaves := (w.shockwaves.map updateShockwave).filter (fun s => !decide (s.alpha ≤ 0)) }

def updateText (t : FloatingText) : FloatingText :=
  let t := { t with y := t.y + t.vy }
  { t with vy := t.vy * (9 / 10), life := t.life - 2 / 100 }

def textPass (w : World) : World :=
  { w with floatingTexts := (w.floatingTexts.map updateText).filter (fun t => !decide (t.life ≤ 0)) }

def shoulderL (w : World) : Vec2 := ⟨w.player.x - 20, w.player.y - 40⟩

def shoulderR (w : World) : Vec2 := ⟨w.player.x + 20, w.player.y - 40⟩

/-- The value `std::sin(frames * 0.1f) * 5.0f`. -/
def floatY (env : Env) (w : World) : ℚ := env.sinF ((w.frames : ℚ) * (1 / 10)) * 5

/-- The timer increment and the arm motion of the SMASH branch, up to the clamps. -/
def smashMove (w : World) : World :=
  let w := { w with punchTimer := w.punchTimer + 1 }
  let scale := levelScale w.level
  let reach := 36 * scale
  let speed := SMASH_SPEED
  let txL := w.punchTarget.x - reach
  let txR := w.punchTarget.x + reach
  let w := { w with leftArm := { w.leftArm with x := w.leftArm.x + (txL - w.leftArm.x) * speed } }
  let w := { w with leftArm := { w.leftArm with y := w.leftArm.y + (w.punchTarget.y - w.leftArm.y) * speed } }
  let w := { w with rightArm := { w.rightArm with x := w.rightArm.x + (txR - w.rightArm.x) * speed } }
  let w := { w with rightArm := { w.rightArm with y := w.rightArm.y + (w.punchTarget.y - w.rightArm.y) * speed } }
  let w :=
    if w.leftArm.x > w.punchTarget.x - reach then
      { w with leftArm := { w.leftArm with x := w.punchTarget.x - reach } }
    else w
  let w :=
    if w.rightArm.x < w.punchTarget.x + reach then
      { w with rightArm := { w.rightArm with x := w.punchTarget.x + reach } }
    else w
  w

/-- The gate `std::abs(rightArm.x - leftArm.x) <= reach * 2 + 15` of the SMASH branch. -/
def smashGate (w : World) : Bool :=
  decide (|w.rightArm.x - w.leftArm.x| ≤ 36 * levelScale w.level * 2 + 15)

/-- The IDLE branch of the punch state machine. -/
def idleStep (env : Env) (w : World) : World :=
  { w with
    leftArm := ⟨(shoulderL w).x - 40, (shoulderL w).y + 20 + floatY env w⟩
    rightArm := ⟨(shoulderR w).x + 40, (shoulderR w).y + 20 + floatY env w⟩ }

/-- The WINDUP branch of the punch state machine. -/
def windupStep (w : World) : World :=
  let w := { w with punchTimer := w.punchTimer + 1 }
  let tx := w.punchTarget.x
  let ty := w.punchTarget.y
  let w := { w with leftArm := { w.leftArm with x := w.leftArm.x + (tx - 250 - w.leftArm.x) * (25 / 100) } }
  let w := { w with leftArm := { w.leftArm with y := w.leftArm.y + (ty - w.leftArm.y) * (25 / 100) } }
  let w := { w with rightArm := { w.rightArm with x := w.rightArm.x + (tx + 250 - w.rightArm.x) * (25 / 100) } }
  let w := { w with rightArm := { w.rightArm with y := w.rightArm.y + (ty - w.rightArm.y) * (25 / 100) } }
  if w.punchTimer > WINDUP_FRAMES then
    { w with punchState := PunchState.SMASH, punchTimer := 0 }
  else w

/-- The gated call of `checkCollision` in the SMASH branch. -/
def smashCollide (env : Env) (w : World) : World :=
  if smashGate w then checkCollision env w.leftArm.x w.rightArm.x w.punchTarget.y w else w

/-- The transition at the end of the SMASH branch. -/
def smashExit (w : World) : World :=
  if w.punchTimer > 5 then { w with punchState := PunchState.HOLD, punchTimer := 0 } else w

/-- The SMASH branch of the punch state machine. -/
def smashStep (env : Env) (w : World) : World :=
  smashExit (smashCollide env (smashMove w))

/-- The HOLD branch of the punch state machine. -/
def holdStep (w : World) : World :=
  let w := { w with punchTimer := w.punchTimer + 1 }
  if w.punchTimer > 6 then { w with punchState := PunchState.RECOVER, punchTimer := 0 } else w

/-- The RECOVER branch of the punch state machine. -/
def recoverStep (env : Env) (w : World) : World :=
  let w := { w with punchTimer := w.punchTimer + 1 }
  let targetXL := (shoulderL w).x - 40
  let targetYL := (shoulderL w).y + 20 + floatY env w
  let targetXR := (shoulderR w).x + 40
  let targetYR := (shoulderR w).y + 20 + floatY env w
  let w := { w with leftArm := { w.leftArm with x := w.leftArm.x + (targetXL - w.leftArm.x) * (2 / 10) } }
  let w := { w with leftArm := { w.leftArm with y := w.leftArm.y + (targetYL - w.leftArm.y) * (2 / 10) } }
  let w := { w with rightArm := { w.rightArm with x := w.rightArm.x + (targetXR - w.rightArm.x) * (2 / 10) } }
  let w := { w with rightArm := { w.rightArm with y := w.rightArm.y + (targetYR - w.rightArm.y) * (2 / 10) } }
  if w.punchTimer > 10 then
    { w with punchState := PunchState.IDLE, leftArm := ⟨targetXL, targetYL⟩, rightArm := ⟨targetXR, targetYR⟩ }
  else w

/-- The punch state machine at the end of `update`. -/
def punchStep (env : Env) (w : World) : World :=
  match w.punchState with
  | PunchState.IDLE => idleStep env w
  | PunchState.WINDUP => windupStep w
  | PunchState.SMASH => smashStep env w
  | PunchState.HOLD => holdStep w
  | PunchState.RECOVER => recoverStep env w

/-- The part of a tick that is not frozen which comes before the punch state
machine: from the frame counter increment to the compaction of the texts. -/
def prePunch (env : Env) (w : World) : World :=
  let w := { w with frames := w.frames + 1 }
  let w := decayEffects w
  let w := levelStep w
  let w := movePlayer w
  let w := spawnStep env w
  let w := enemyPass env w
  let w := compactEnemies w
  let w := particlePass w
  let w := shockwavePass w
  let w := textPass w
  w

/-- The part of `update` that runs in a tick that is not frozen: everything
after the two early returns. -/
def activeTick (env : Env) (w : World) : World :=
  punchStep env (prePunch env w)

def update (env : Env) (w : World) : World :=
  if w.gameState ≠ GameState.PLAYING then w
  else if w.hitStop > 0 then { w with hitStop := w.hitStop - 1 }
  else activeTick env w

/-! ## The main loop -/

/-- The statements `initGame(); gameState = PLAYING;` of `main`. -/
def startPlaying (w : World) : World :=
  { initGame w with gameState := GameState.PLAYING }

/-- The handler of `SDL_MOUSEMOTION`. -/
def mouseMotion (x y : ℤ) (w : World) : World :=
  { w with mouse := { w.mouse with x := x, y := y } }

/-- The handler of `SDL_MOUSEBUTTONDOWN`. -/
def mouseButtonDown (env : Env) (w : World) : World :=
  if w.gameState = GameState.MENU ∨ w.gameState = GameState.GAME_OVER then startPlaying w
  else if w.punchState = PunchState.IDLE then triggerPunch env w
  else w

/-- The handler of `SDL_WINDOWEVENT_RESIZED`. -/
def windowResized (W H : ℤ) (w : World) : World :=
  { w with
    WINDOW_WIDTH := W
    WINDOW_HEIGHT := H
    player := { w.player with y := ((H - 100 : ℤ) : ℚ) } }

/-- The update part of one iteration of the main loop. -/
def tick (env : Env) (w : World) : World :=
  if w.gameState = GameState.PLAYING then update env w else w

/-- What the main loop reacts to: the end of the event polling (one update) and
the three input events that change the simulation. -/
inductive Event where
  | tick
  | mouseMotion (x y : ℤ)
  | mouseButtonDown
  | windowResized (W H : ℤ)
deriving DecidableEq

def step (env : Env) (w : World) : Event → World
  | Event.tick => tick env w
  | Event.mouseMotion x y => mouseMotion x y w
  | Event.mouseButtonDown => mouseButtonDown env w
  | Event.windowResized W H => windowResized W H w

def run (env : Env) : World → List Event → World
  | w, [] => w
  | w, ev :: evs => run env (step env w ev) evs

/-- The worlds that the program can be in once a session has been started:
`initGame` followed by `gameState = PLAYING` from any earlier values of the
globals, then any events, and any direct calls of `update` and `triggerPunch`. -/
inductive Reachable (env : Env) : World → Prop where
  | start (w0 : World) : Reachable env (startPlaying w0)
  | event (w : World) (ev : Event) : Reachable env w → Reachable env (step env w ev)
  | update (w : World) : Reachable env w → Reachable env (update env w)
  | punch (w : World) : Reachable env w → Reachable env (triggerPunch env w)

/-! ## Reference notions used in the statements -/

/-- The position of an enemy. -/
def enemyPos (e : Enemy) : Vec2 := ⟨e.x, e.y⟩

/-- The prediction variables that correspond to an enemy. -/
def simOf (e : Enemy) : Sim := ⟨e.x, e.y, e.vx⟩

/-- Two enemies agree on the parameters that the motion rule only reads. -/
structure SameParams (e e' : Enemy) : Prop where
  size : e'.size = e.size
  speed : e'.speed = e.speed
  swayOffset : e'.swayOffset = e.swayOffset
  swaySpeed : e'.swaySpeed = e.swaySpeed
  swayAmplitude : e'.swayAmplitude = e.swayAmplitude

/-- The second world has the values of the first in the globals that the phases
of a tick before the punch state machine never write. -/
structure PunchFrame (w w' : World) : Prop where
  punchState : w'.punchState = w.punchState
  punchTimer : w'.punchTimer = w.punchTimer
  punchTarget : w'.punchTarget = w.punchTarget
  leftArm : w'.leftArm = w.leftArm
  rightArm : w'.rightArm = w.rightArm
  hasSmashImpacted : w'.hasSmashImpacted = w.hasSmashImpacted
  impactCalls : w'.impactCalls = w.impactCalls
  hitStop : w'.hitStop = w.hitStop
  WINDOW_WIDTH : w'.WINDOW_WIDTH = w.WINDOW_WIDTH
  WINDOW_HEIGHT : w'.WINDOW_HEIGHT = w.WINDOW_HEIGHT
  frames : w'.frames = w.frames

/-- The second world has the values of the first in the globals that only the
enemy loop, the level recomputation and the frame counter increment write. -/
structure VitalFrame (w w' : World) : Prop where
  health : w'.health = w.health
  gameState : w'.gameState = w.gameState
  level : w'.level = w.level
  frames : w'.frames = w.frames
  WINDOW_WIDTH : w'.WINDOW_WIDTH = w.WINDOW_WIDTH
  WINDOW_HEIGHT : w'.WINDOW_HEIGHT = w.WINDOW_HEIGHT

/-- What the enemy loop keeps true of health and session state, relative to
the health `h0` before the loop. -/
def DamageInv (h0 : ℚ) (g0 : GameState) (s : World) : Prop :=
  s.health ≤ h0 ∧ (s.health < h0 → s.health ≤ 0 → s.gameState = GameState.GAME_OVER) ∧
    (s.health = h0 → s.gameState = g0) ∧
    (g0 = GameState.PLAYING → 0 < h0 → s.gameState = GameState.PLAYING → 0 < s.health) ∧
    (g0 ≠ GameState.PLAYING → s.gameState ≠ GameState.PLAYING)

/-- The punch state and the timer. -/
def punchPhase (w : World) : PunchState × ℤ := (w.punchState, w.punchTimer)

/-- The punch state and the timer after one tick that is not frozen. -/
def nextPhase : PunchState × ℤ → PunchState × ℤ
  | (PunchState.IDLE, t) => (PunchState.IDLE, t)
  | (PunchState.WINDUP, t) => if t + 1 > 8 then (PunchState.SMASH, 0) else (PunchState.WINDUP, t + 1)
  | (PunchState.SMASH, t) => if t + 1 > 5 then (PunchState.HOLD, 0) else (PunchState.SMASH, t + 1)
  | (PunchState.HOLD, t) => if t + 1 > 6 then (PunchState.RECOVER, 0) else (PunchState.HOLD, t + 1)
  | (PunchState.RECOVER, t) =>
    if t + 1 > 10 then (PunchState.IDLE, t + 1) else (PunchState.RECOVER, t + 1)

/-- The punch state and the timer `n` ticks after a trigger, when none of the
ticks is frozen: Windup until tick 8, Smash from tick 9, Hold from tick 15,
Recover from tick 22, Idle from tick 33. -/
def phaseAfter (n : ℕ) : PunchState × ℤ :=
  if n ≤ 8 then (PunchState.WINDUP, (n : ℤ))
  else if n ≤ 14 then (PunchState.SMASH, (n : ℤ) - 9)
  else if n ≤ 21 then (PunchState.HOLD, (n : ℤ) - 15)
  else if n ≤ 32 then (PunchState.RECOVER, (n : ℤ) - 22)
  else (PunchState.IDLE, 11)

/-- The globals that `checkCollision` may write. -/
def CollisionWrites (w w' : World) : Prop :=
  ∃ ic hs sh sw ps rc cz fl es sc ft st, w' =
    { w with impactCalls := ic, hasSmashImpacted := hs, shakeIntensity := sh, shockwaves := sw,
             particles := ps, rngCalls := rc, camZoom := cz, flashIntensity := fl, enemies := es,
             score := sc, floatingTexts := ft, hitStop := st }

/-- A state in which `update` runs a full tick: the session is Playing and no
hit-stop is pending. -/
def nonFrozen (w : World) : Prop := w.gameState = GameState.PLAYING ∧ w.hitStop ≤ 0

instance nonFrozenDecidable (w : World) : Decidable (nonFrozen w) := by
  unfold nonFrozen
  infer_instance

/-- This call of `update` reaches `checkCollision`, and the arm gap that
`checkCollision` sees is at most `2 * gloveReach`. -/
def clapTick (env : Env) (w : World) : Bool :=
  decide (w.gameState = GameState.PLAYING) && !decide (0 < w.hitStop) &&
    decide ((prePunch env w).punchState = PunchState.SMASH) &&
    smashGate (smashMove (prePunch env w)) &&
    decide (|(smashMove (prePunch env w)).rightArm.x - (smashMove (prePunch env w)).leftArm.x|
      ≤ 44 * levelScale (smashMove (prePunch env w)).level * 2)

/-- Some tick of the run from `w` through the events is a `clapTick`. -/
def clapSeen (env : Env) : World → List Event → Bool
  | _, [] => false
  | w, ev :: evs => (decide (ev = Event.tick) && clapTick env w) || clapSeen env (step env w ev) evs

/-- Health is at most 100, and positive while the session is Playing. -/
def HealthInv (w : World) : Prop :=
  w.health ≤ 100 ∧ (w.gameState = GameState.PLAYING → 0 < w.health)

/-- The x coordinate of an enemy after the fall and sway of a tick at frame
counter `frames`, before the wall clamps. -/
def preClampX (env : Env) (frames : ℤ) (e : Enemy) : ℚ :=
  e.x + (e.vx + env.sinF ((frames : ℚ) * e.swaySpeed + e.swayOffset) * e.swayAmplitude)

/-- The enemy is clamped to a wall in a tick at frame counter `frames`. -/
def wasClamped (env : Env) (frames : ℤ) (W : ℤ) (e : Enemy) : Prop :=
  preClampX env frames e < e.size / 2 ∨ preClampX env frames e > (W : ℚ) - e.size / 2

/-- The enemy is between the walls: `size / 2 ≤ x ≤ W - size / 2`. -/
def inField (W : ℤ) (e : Enemy) : Prop :=
  e.size / 2 ≤ e.x ∧ e.x ≤ (W : ℚ) - e.size / 2

/-- The punch state at the start of each of `n` successive calls of `update`
from `w`, paired with whether that call is a full tick (`nonFrozen`); the call
runs the branch of the state it starts in. -/
def punchTrace (env : Env) : ℕ → World → List (PunchState × Bool)
  | 0, _ => []
  | n + 1, w => (w.punchState, decide (nonFrozen w)) :: punchTrace env n (update env w)

/-- The number of the first `n` calls of `update` from `w` that are full ticks. -/
def activeTicks (env : Env) : ℕ → World → ℕ
  | 0, _ => 0
  | n + 1, w => (if nonFrozen w then 1 else 0) + activeTicks env n (update env w)

/-- The wall-bounce statement of the prediction loop of `triggerPunch` on its
own, for an enemy of the given size in a field of width `W`:
`if (simX < margin) ... else if (simX > WINDOW_WIDTH - margin) ...`.  The
result is the pair of `simX` and `simVx` after it. -/
def predictBounce (size : ℚ) (W : ℤ) (simX simVx : ℚ) : ℚ × ℚ :=
  let margin := size / 2
  if simX < margin then (margin, simVx * -1)
  else if simX > (W : ℚ) - margin then ((W : ℚ) - margin, simVx * -1)
  else (simX, simVx)

/-- The wall-bounce statements of the enemy loop of `update` on their own: two
independent `if`s, the second of which reads what the first wrote.  The result
is the pair of `e.x` and `e.vx` after them. -/
def updateBounce (size : ℚ) (W : ℤ) (x vx : ℚ) : ℚ × ℚ :=
  let r : ℚ × ℚ := if x < size / 2 then (size / 2, vx * -1) else (x, vx)
  if r.1 > (W : ℚ) - size / 2 then ((W : ℚ) - size / 2, r.2 * -1) else r

/-- The world at the spawn statement of a tick that is not frozen: after the
frame counter increment, the decay, the level recomputation and the player
motion. -/
def preSpawn (w : World) : World :=
  movePlayer (levelStep (decayEffects { w with frames := w.frames + 1 }))

/-- The part of a tick that is not frozen between the spawn statement and the
punch state machine: the enemy loop and the four compactions. -/
def afterSpawn (env : Env) (w : World) : World :=
  textPass (shockwavePass (particlePass (compactEnemies (enemyPass env w))))

/-- The turn of enemy `e` in the enemy loop of `update`, started in world `w`,
is a block: the enemy ends deactivated, exactly 10 points have been added to
the score and shake is 5. -/
def blocked (env : Env) (w : World) (e : Enemy) : Prop :=
  (updateEnemy env w e).1.active = false ∧ (updateEnemy env w e).2.score = w.score + 10 ∧
    (updateEnemy env w e).2.shakeIntensity = 5

instance blockedDecidable (env : Env) (w : World) (e : Enemy) : Decidable (blocked env w e) := by
  unfold blocked
  infer_instance

/-- This call of `update` reaches `checkCollision`: the session is Playing, no
hit-stop is pending, the punch state is Smash and the arm gap after the arm
motion passes the gate `gap <= reach * 2 + 15` of the SMASH branch. -/
def collisionTick (env : Env) (w : World) : Bool :=
  decide (w.gameState = GameState.PLAYING) && !decide (0 < w.hitStop) &&
    decide ((prePunch env w).punchState = PunchState.SMASH) &&
    smashGate (smashMove (prePunch env w))

/-- Some tick of the run from `w` through the events is a `collisionTick`. -/
def collisionSeen (env : Env) : World → List Event → Bool
  | _, [] => false
  | w, ev :: evs =>
    (decide (ev = Event.tick) && collisionTick env w) || collisionSeen env (step env w ev) evs

/-- The score is non-negative and no enemy has a negative size. -/
def ScoreInv (w : World) : Prop := 0 ≤ w.score ∧ ∀ e ∈ w.enemies, 0 ≤ e.size

/-- The routine `std::log` of the environment is within `1/50` of the natural
logarithm at the two arguments that `calculateFlightFrames(SMASH_SPEED)`
passes to it: the threshold 0.05 and `1 - speed`. -/
def LogAccurate (env : Env) : Prop :=
  |((env.logF (5 / 100) : ℚ) : ℝ) - Real.log (5 / 100)| ≤ 1 / 50 ∧
    |((env.logF (1 - SMASH_SPEED) : ℚ) : ℝ) - Real.log (1 - 6 / 10)| ≤ 1 / 50

/-- An active enemy for which the value `dist(mouse, enemy)` is less than the
`float` sum `size + 100`. -/
def lockable (env : Env) (m : Vec2) (e : Enemy) : Bool :=
  e.active && decide (dist env m (enemyPos e) < env.roundF (e.size + 100))

/-- Strictly inside the axis-aligned box centred at `c` with the given half
width and half height. -/
def insideBox (c : Vec2) (halfWidth halfHeight : ℚ) (p : Vec2) : Prop :=
  |p.x - c.x| < halfWidth ∧ |p.y - c.y| < halfHeight

instance insideBoxDecidable (c : Vec2) (hw hh : ℚ) (p : Vec2) : Decidable (insideBox c hw hh p) := by
  unfold insideBox
  infer_instance

/-- The point `p` is at distance less than `size / 2 + 30 * scale` from the
left glove or from the right glove of `w`: the distance is the value that
`dist` returns, and the bound is the `float` sum of the `float` values
`size / 2` and `30 * scale`. -/
def nearGlove (env : Env) (w : World) (p : Vec2) (size : ℚ) : Prop :=
  dist env p w.leftArm
      < env.roundF (env.roundF (size / 2) + env.roundF (30 * levelScale w.level)) ∨
    dist env p w.rightArm
      < env.roundF (env.roundF (size / 2) + env.roundF (30 * levelScale w.level))

instance nearGloveDecidable (env : Env) (w : World) (p : Vec2) (size : ℚ) :
    Decidable (nearGlove env w p size) := by
  unfold nearGlove
  infer_instance

/-! ## Sample data for the concrete evaluations -/

/-- The integer square root of `n`, by Newton iteration from `x`, a value that
is not below it: the iteration stops at the first value that does not
decrease. -/
def isqrtNewton (n : ℕ) : ℕ → ℕ → ℕ
  | 0, x => x
  | fuel + 1, x => if (x + n / x) / 2 < x then isqrtNewton n fuel ((x + n / x) / 2) else x

/-- The greatest `e` in `[lo, lo + 2 ^ k)` with `2 ^ e ≤ n`, when `2 ^ lo ≤ n`. -/
def log2Bits (n : ℕ) : ℕ → ℕ → ℕ
  | 0, lo => lo
  | k + 1, lo => if 2 ^ (lo + 2 ^ k) ≤ n then log2Bits n k (lo + 2 ^ k) else log2Bits n k lo

/-- The binary logarithm of `n` rounded down, for `0 < n < 2 ^ 4096`. -/
def log2Nat (n : ℕ) : ℕ := log2Bits n 12 0

/-- The integer square root of `n`, for `n < 2 ^ 4096`. -/
def isqrt (n : ℕ) : ℕ :=
  if n = 0 then 0 else isqrtNewton n 4200 (2 ^ (log2Nat n / 2 + 1))

/-- A square root for the sample environments: the square root rounded down to
a multiple of 1/4096. -/
def sqrtGrid (q : ℚ) : ℚ := (isqrt ⌊q * 2 ^ 24⌋.toNat : ℚ) / 2 ^ 12

/-- An environment for concrete evaluations: `log` is given at the two points
where `triggerPunch` needs it (ln 0.05 and ln 0.4 to four decimals). -/
def envSample : Env where
  sinF := fun _ => 0
  cosF := fun _ => 1
  logF := fun x => if x = 5 / 100 then -29957 / 10000 else if x = 4 / 10 then -9163 / 10000 else 0
  rand := fun _ => 0
  RAND_MAX := 32767
  sqrtF := sqrtGrid
  roundF := fun q => q
  roundD := fun q => q
  roundF_nonneg := fun _ h => h

/-- An enemy without sway and without drift. -/
def enemyStill (x y size speed : ℚ) : Enemy where
  x := x
  y := y
  size := size
  speed := speed
  vx := 0
  swayOffset := 0
  swaySpeed := 0
  swayAmplitude := 0
  rotation := 0
  rotSpeed := 0
  type := EnemyType.CRATE
  color := enemyColor EnemyType.CRATE
  active := true

/-- A session that has just started in the default window. -/
def worldStart : World := startPlaying initialWorld

/-- A strike scene at level 2: one enemy of size 40 in the middle of the box,
one far to the right, one in the box that is no longer active, one of size 31
near the lower right corner of the box. -/
def worldStrike : World :=
  { worldStart with
    level := 2
    enemies := [enemyStill 100 100 40 2, enemyStill 300 100 40 2,
      { enemyStill 100 100 30 2 with active := false }, enemyStill 110 150 31 2] }

/-- The strike scene frozen by a hit-stop of 4. -/
def worldFrozen : World := { worldStrike with hitStop := 4 }

/-- A player with health 20 and one enemy that touches the player on the next tick. -/
def worldLastHit : World :=
  { worldStart with
    health := 20
    mouse := ⟨512, 0, false⟩
    enemies := [enemyStill 512 600 40 2] }

/-- An environment for the double hit: `rand()` returns 0 except at the calls
that draw the fall speed of the enemies number 1, 2, 3, 4 and 6, where it
returns `RAND_MAX`; `sin` is taken to be 0. -/
def envDuel : Env where
  sinF := fun _ => 0
  cosF := fun _ => 1
  logF := fun _ => 0
  rand := fun k => if k = 3 ∨ k = 71 ∨ k = 139 ∨ k = 207 ∨ k = 283 then 32767 else 0
  RAND_MAX := 32767
  sqrtF := sqrtGrid
  roundF := fun q => q
  roundD := fun q => q
  roundF_nonneg := fun _ h => h

/-- A session started in a window of width 30 and height 404.  Every enemy
has size 30, so the two wall clamps put it at x = 15 on every tick whatever
the sway is; the player is clamped to x = 10 and the gloves, at x = -50 and
x = 70, are out of reach of an enemy at x = 15. -/
def worldDuel : World :=
  startPlaying { initialWorld with WINDOW_WIDTH := 30, WINDOW_HEIGHT := 404 }

/-- The default field with one enemy of size 40 that drifts into the left wall. -/
def worldBounce : World :=
  { worldStart with enemies := [{ enemyStill 10 300 40 2 with vx := -3 }] }

/-- A field of width 60 with one enemy of size 70 that drifts to the right. -/
def worldNarrowDrift : World :=
  { worldStart with
    WINDOW_WIDTH := 60
    enemies := [{ enemyStill 30 300 70 2 with vx := 1 }] }

/-- A level 2 scene with one enemy under the pointer, which the punch kills. -/
def worldPunch : World :=
  { worldStart with
    level := 2
    score := 1000
    mouse := ⟨400, 220, false⟩
    enemies := [enemyStill 400 200 40 2] }

/-- A finished session whose transient globals all differ from their initial
values: hit-stop 4, shake 25, flash 3/10, zoom 16/10, punch timer 3, impact
flag set, enemy 0 locked. -/
def worldStale : World :=
  { worldStart with
    gameState := GameState.GAME_OVER
    score := 1234
    health := -20
    level := 2
    frames := 900
    hitStop := 4
    shakeIntensity := 25
    flashIntensity := 3 / 10
    camZoom := 16 / 10
    punchState := PunchState.SMASH
    punchTimer := 3
    hasSmashImpacted := true
    lockedEnemy := some 0
    enemies := [enemyStill 400 200 40 2] }

/-- The scene `worldPunch` twelve ticks after the punch was triggered: the
punch state is Smash and the next tick is the first that reaches
`checkCollision`. -/
def worldMidSmash : World := (update envSample)^[12] (triggerPunch envSample worldPunch)

/-- An environment whose first `rand()` call returns `RAND_MAX`, so that the
first enemy spawned has size 70; every other call returns 0 and `sin` is taken
to be 0. -/
def envLarge : Env where
  sinF := fun _ => 0
  cosF := fun _ => 1
  logF := fun x => if x = 5 / 100 then -29957 / 10000 else if x = 4 / 10 then -9163 / 10000 else 0
  rand := fun k => if k = 0 then 32767 else 0
  RAND_MAX := 32767
  sqrtF := sqrtGrid
  roundF := fun q => q
  roundD := fun q => q
  roundF_nonneg := fun _ h => h

/-- A session whose window is resized to 60 by 768 right at the start, after
60 ticks: the first enemy, of size 70, has just been spawned and clamped to
x = 25; the pointer is at (0, 0) and the punch state is Idle. -/
def worldSqueezed : World :=
  run envLarge worldStart (Event.windowResized 60 768 :: List.replicate 60 Event.tick)

/-- An environment in which `sin` and `cos` are their Taylor polynomials of
degree 5 and 4. -/
def envSway : Env where
  sinF := fun q => q - q ^ 3 / 6 + q ^ 5 / 120
  cosF := fun q => 1 - q ^ 2 / 2 + q ^ 4 / 24
  logF := fun x => if x = 5 / 100 then -29957 / 10000 else if x = 4 / 10 then -9163 / 10000 else 0
  rand := fun _ => 0
  RAND_MAX := 32767
  sqrtF := sqrtGrid
  roundF := fun q => q
  roundD := fun q => q
  roundF_nonneg := fun _ h => h

/-- The default field at frame 3 with one enemy of size 40 at (30, 100) that
falls by 2 a tick, drifts to the left by 6 a tick and sways with amplitude 7;
the pointer is on it. -/
def worldSway : World :=
  { worldStart with
    frames := 3
    mouse := ⟨30, 100, false⟩
    enemies := [{ enemyStill 30 100 40 2 with
      vx := -6, swaySpeed := 1 / 20, swayOffset := 1 / 10, swayAmplitude := 7 }] }

/-- The exponent `e` with `2 ^ e ≤ n / d < 2 ^ (e + 1)`, for positive `n` and `d`
below `2 ^ 4096`. -/
def binExp (n d : ℕ) : ℤ :=
  if d * 2 ^ (log2Nat n - log2Nat d) ≤ n * 2 ^ (log2Nat d - log2Nat n) then
    (log2Nat n : ℤ) - (log2Nat d : ℤ)
  else (log2Nat n : ℤ) - (log2Nat d : ℤ) - 1

/-- The quotient `n / d` rounded to the nearest integer, ties to the even one. -/
def roundEven (n d : ℕ) : ℕ :=
  if 2 * (n % d) < d then n / d
  else if d < 2 * (n % d) then n / d + 1
  else if n / d % 2 = 0 then n / d else n / d + 1

/-- Rounding to nearest, ties to even, in the binary floating-point format with
`p` bits of precision and least exponent `emin` (IEEE 754); values too large
for the format are not turned into infinities.  With `2 ^ sh` the unit in the
last place of the result, the result is `|q| / 2 ^ sh` rounded to an integer,
times `2 ^ sh`, with the sign of `q`. -/
def roundBin (p : ℕ) (emin : ℤ) (q : ℚ) : ℚ :=
  if q.num = 0 then 0
  else
    let sh : ℤ := max (binExp q.num.natAbs q.den) emin - ((p : ℤ) - 1)
    let m := roundEven (q.num.natAbs * 2 ^ (-sh).toNat) (q.den * 2 ^ sh.toNat)
    let v : ℚ := mkRat ((m * 2 ^ sh.toNat : ℕ) : ℤ) (2 ^ (-sh).toNat)
    if q.num < 0 then -v else v

/-- Rounding to `float` (binary32). -/
def toFloat (q : ℚ) : ℚ := roundBin 24 (-126) q

/-- Rounding to `double` (binary64). -/
def toDouble (q : ℚ) : ℚ := roundBin 53 (-1022) q

/-- The square root rounded to `double`, as IEEE 754 requires of `sqrt`.  The
argument `x` is scaled by `4 ^ k` so that the integer square root `r` of the
integer part of `x * 4 ^ k` has 61 bits.  The root of `x * 4 ^ k` is `r` when
`x * 4 ^ k = r * r`; otherwise it lies strictly between `r` and `r + 1`, where
every value rounds to the same `double`, and `r + 1 / 2` is taken. -/
def sqrtDouble (x : ℚ) : ℚ :=
  if x.num ≤ 0 then 0
  else
    let k : ℤ := 60 - binExp x.num.natAbs x.den / 2
    let r := isqrt (x.num.natAbs * 4 ^ k.toNat / (x.den * 4 ^ (-k).toNat))
    let odd : ℕ :=
      if r * r * (x.den * 4 ^ (-k).toNat) = x.num.natAbs * 4 ^ k.toNat then 0 else 1
    toDouble (mkRat ((2 * r + odd : ℕ) : ℤ) (2 * 2 ^ k.toNat) * 2 ^ (-k).toNat)

/-- The environment of IEEE 754 arithmetic: results are rounded to nearest,
ties to even, and `std::sqrt` is correctly rounded; `sin` is taken to be 0. -/
def envIEEE : Env where
  sinF := fun _ => 0
  cosF := fun _ => 1
  logF := fun x => if x = 5 / 100 then -29957 / 10000 else if x = 4 / 10 then -9163 / 10000 else 0
  sqrtF := sqrtDouble
  roundF := toFloat
  roundD := toDouble
  rand := fun _ => 0
  RAND_MAX := 32767
  roundF_nonneg := by
    intro q hq
    have hn : 0 ≤ q.num := Rat.num_nonneg.mpr hq
    unfold toFloat roundBin
    simp only
    split_ifs with h0 h1
    · exact le_refl _
    · exact absurd hn (not_le.mpr h1)
    · exact Rat.mkRat_nonneg (Int.natCast_nonneg _) _

/-- Two enemies at the same distance 30 from the pointer at `(50, 0)`, and a
nearer one that is not active. -/
def worldTie : World :=
  { worldStart with
    mouse := ⟨50, 0, false⟩
    enemies := [enemyStill 80 0 40 2, enemyStill 20 0 40 2,
      { enemyStill 50 10 40 2 with active := false }] }

/-- Two enemies of size 40 and the pointer at `(0, 0)`: the first enemy at
`(100, 1 / 128)`, the second at `(100, 0)`. -/
def worldNearTie : World :=
  { worldStart with enemies := [enemyStill 100 (1 / 128) 40 2, enemyStill 100 0 40 2] }

/-- One enemy of size 40 at `(140 - 1 / 65536, 1 / 16)` and the pointer at `(0, 0)`. -/
def worldRim : World :=
  { worldStart with enemies := [enemyStill (140 - 1 / 65536) (1 / 16) 40 2] }

/-- An enemy of size 30 that falls by 2 per tick, just inside the circle of
radius 45 around the point `(452, 648)` after its next move. -/
def enemyGraze : Enemy := enemyStill (497 - 1 / 32768) (646 + 53 / 1024) 30 2

/-- The session after the pointer has moved to `(512, 300)` and one tick has
run, with the enemy `enemyGraze` in the field. -/
def worldGraze : World :=
  { run envIEEE worldStart [Event.mouseMotion 512 300, Event.tick] with enemies := [enemyGraze] }

/-! ## Theorems -/

/-! ### The motion rule and the prediction loop -/

theorem moveEnemy_size (env : Env) (f W : ℤ) (e : Enemy) : (moveEnemy env f W e).size = e.size := by
  unfold moveEnemy
  simp only
  split_ifs <;> rfl

theorem moveEnemy_sameParams (env : Env) (f W : ℤ) (e e' : Enemy) (h : SameParams e e') :
    SameParams e (moveEnemy env f W e') := by
  obtain ⟨h1, h2, h3, h4, h5⟩ := h
  unfold moveEnemy
  simp only
  split_ifs <;> exact ⟨h1, h2, h3, h4, h5⟩

/-- In the enemy loop of `update` an active enemy gets the position and drift of
`moveEnemy` at the current frame counter; the later checks change only `active`. -/
theorem updateEnemy_motion (env : Env) (w : World) (e : Enemy) (h : e.active = true) :
    simOf (updateEnemy env w e).1 = simOf (moveEnemy env w.frames w.WINDOW_WIDTH e) := by
  unfold updateEnemy damageCheck floorCheck
  simp only [h, Bool.not_true, Bool.false_eq_true, if_false]
  split_ifs <;> rfl

/-- With a field at least as wide as the enemy, one iteration of the prediction
loop is one application of the motion rule. -/
theorem predictStep_simOf (env : Env) (e e' : Enemy) (W f : ℤ) (h : SameParams e e')
    (hW : e.size ≤ (W : ℚ)) :
    predictStep env e W f (simOf e') = simOf (moveEnemy env f W e') := by
  obtain ⟨h1, h2, h3, h4, h5⟩ := h
  unfold predictStep moveEnemy simOf
  simp only [h1, h2, h3, h4, h5]
  split_ifs <;> first | rfl | (exfalso; linarith)

/-! ### The kill sweep of checkCollision -/

@[simp] theorem createDebris_score (env : Env) (x y : ℚ) (c : Color) (n : ℤ) (s : ℚ) (w : World) :
    (createDebris env x y c n s w).score = w.score := rfl

@[simp] theorem createDebris_level (env : Env) (x y : ℚ) (c : Color) (n : ℤ) (s : ℚ) (w : World) :
    (createDebris env x y c n s w).level = w.level := rfl

theorem collideEnemy_fst (env : Env) (cx y s : ℚ) (acc : World × ℤ) (e : Enemy) :
    (collideEnemy env cx y s acc e).1
      = if e.active && inKillBox cx y s e then { e with active := false } else e := by
  unfold collideEnemy
  cases e.active <;> cases inKillBox cx y s e <;> simp

theorem collideEnemy_score (env : Env) (cx y s : ℚ) (acc : World × ℤ) (e : Enemy) :
    (collideEnemy env cx y s acc e).2.1.score
      = acc.1.score + (if e.active && inKillBox cx y s e then killPoints env e.size s else 0) := by
  unfold collideEnemy
  cases e.active <;> cases inKillBox cx y s e <;> simp
  split_ifs <;> rfl

theorem forEnemies_collide_fst (env : Env) (cx y s : ℚ) :
    ∀ (es : List Enemy) (acc : World × ℤ),
      (forEnemies (collideEnemy env cx y s) es acc).1
        = es.map (fun e => if e.active && inKillBox cx y s e then { e with active := false } else e) := by
  intro es
  induction es with
  | nil => intro acc; rfl
  | cons e es ih =>
    intro acc
    simp only [forEnemies, List.map_cons, ih, collideEnemy_fst]

theorem forEnemies_collide_score (env : Env) (cx y s : ℚ) :
    ∀ (es : List Enemy) (acc : World × ℤ),
      (forEnemies (collideEnemy env cx y s) es acc).2.1.score
        = acc.1.score + ((es.filter (fun e => e.active && inKillBox cx y s e)).map
            (fun e => killPoints env e.size s)).sum := by
  intro es
  induction es with
  | nil => intro acc; simp [forEnemies]
  | cons e es ih =>
    intro acc
    simp only [forEnemies, ih, collideEnemy_score, List.filter_cons]
    split_ifs <;> simp [add_assoc]


theorem triggerImpact_enemies (env : Env) (x y s : ℚ) (w : World) :
    (triggerImpact env x y s w).enemies = w.enemies := by
  unfold triggerImpact createParticles
  simp only
  split_ifs <;> rfl

theorem triggerImpact_score (env : Env) (x y s : ℚ) (w : World) :
    (triggerImpact env x y s w).score = w.score := by
  unfold triggerImpact createParticles
  simp only
  split_ifs <;> rfl

theorem triggerImpact_level (env : Env) (x y s : ℚ) (w : World) :
    (triggerImpact env x y s w).level = w.level := by
  unfold triggerImpact createParticles
  simp only
  split_ifs <;> rfl

theorem clapStep_enemies (env : Env) (cx y s d g : ℚ) (w : World) :
    (clapStep env cx y s d g w).enemies = w.enemies := by
  unfold clapStep
  split_ifs
  · exact triggerImpact_enemies env cx y s w
  · rfl
  · rfl

theorem clapStep_score (env : Env) (cx y s d g : ℚ) (w : World) :
    (clapStep env cx y s d g w).score = w.score := by
  unfold clapStep
  split_ifs
  · exact triggerImpact_score env cx y s w
  · rfl
  · rfl

theorem clapStep_level (env : Env) (cx y s d g : ℚ) (w : World) :
    (clapStep env cx y s d g w).level = w.level := by
  unfold clapStep
  split_ifs
  · exact triggerImpact_level env cx y s w
  · rfl
  · rfl

theorem killSweep_enemies (env : Env) (cx y s : ℚ) (w : World) :
    (killSweep env cx y s w).enemies
      = (forEnemies (collideEnemy env cx y s) w.enemies (w, 0)).1 := by
  unfold killSweep
  simp only
  split_ifs <;> rfl

theorem killSweep_score (env : Env) (cx y s : ℚ) (w : World) :
    (killSweep env cx y s w).score
      = (forEnemies (collideEnemy env cx y s) w.enemies (w, 0)).2.1.score := by
  unfold killSweep
  simp only
  split_ifs <;> rfl

theorem truncToInt_of_nonneg (q : ℚ) (h : 0 ≤ q) : truncToInt q = ⌊q⌋ := by
  unfold truncToInt
  rw [if_pos h]

/-! ### Lock-on -/

theorem triggerPunch_lockedEnemy (env : Env) (w : World) :
    (triggerPunch env w).lockedEnemy = lockOn env w := by
  unfold triggerPunch
  simp only
  split
  · split <;> rfl
  · rfl

/-! ### What the phases of a tick leave unchanged -/

theorem punchFrame_refl (w : World) : PunchFrame w w :=
  ⟨rfl, rfl, rfl, rfl, rfl, rfl, rfl, rfl, rfl, rfl, rfl⟩

theorem punchFrame_trans {a b c : World} (h1 : PunchFrame a b) (h2 : PunchFrame b c) : PunchFrame a c :=
  ⟨h2.punchState.trans h1.punchState, h2.punchTimer.trans h1.punchTimer, h2.punchTarget.trans h1.punchTarget, h2.leftArm.trans h1.leftArm, h2.rightArm.trans h1.rightArm, h2.hasSmashImpacted.trans h1.hasSmashImpacted, h2.impactCalls.trans h1.impactCalls, h2.hitStop.trans h1.hitStop, h2.WINDOW_WIDTH.trans h1.WINDOW_WIDTH, h2.WINDOW_HEIGHT.trans h1.WINDOW_HEIGHT, h2.frames.trans h1.frames⟩

theorem vitalFrame_refl (w : World) : VitalFrame w w :=
  ⟨rfl, rfl, rfl, rfl, rfl, rfl⟩

theorem vitalFrame_trans {a b c : World} (h1 : VitalFrame a b) (h2 : VitalFrame b c) : VitalFrame a c :=
  ⟨h2.health.trans h1.health, h2.gameState.trans h1.gameState, h2.level.trans h1.level, h2.frames.trans h1.frames, h2.WINDOW_WIDTH.trans h1.WINDOW_WIDTH, h2.WINDOW_HEIGHT.trans h1.WINDOW_HEIGHT⟩

theorem forEnemies_state {σ : Type} (body : σ → Enemy → Enemy × σ) (P : σ → Prop)
    (h : ∀ s e, P s → P (body s e).2) :
    ∀ (es : List Enemy) (s : σ), P s → P (forEnemies body es s).2 := by
  intro es
  induction es with
  | nil => intro s hs; exact hs
  | cons e es ih => intro s hs; exact ih _ (h s e hs)

theorem forEnemies_mem {σ : Type} (body : σ → Enemy → Enemy × σ) (P : σ → Prop)
    (Q : Enemy → Prop) (hP : ∀ s e, P s → P (body s e).2) (hQ : ∀ s e, P s → Q (body s e).1) :
    ∀ (es : List Enemy) (s : σ), P s → ∀ e' ∈ (forEnemies body es s).1, Q e' := by
  intro es
  induction es with
  | nil => intro s _ e' he'; simp [forEnemies] at he'
  | cons e es ih =>
    intro s hs e' he'
    simp only [forEnemies, List.mem_cons] at he'
    rcases he' with rfl | he'
    · exact hQ s e hs
    · exact ih _ (hP s e hs) e' he'

theorem decayEffects_punch (w : World) : PunchFrame w (decayEffects w) := by
  unfold decayEffects
  simp only
  split_ifs <;> exact ⟨rfl, rfl, rfl, rfl, rfl, rfl, rfl, rfl, rfl, rfl, rfl⟩

theorem levelStep_punch (w : World) : PunchFrame w (levelStep w) := by
  unfold levelStep
  simp only
  split_ifs <;> exact ⟨rfl, rfl, rfl, rfl, rfl, rfl, rfl, rfl, rfl, rfl, rfl⟩

theorem movePlayer_punch (w : World) : PunchFrame w (movePlayer w) := by
  unfold movePlayer
  simp only
  split_ifs <;> exact ⟨rfl, rfl, rfl, rfl, rfl, rfl, rfl, rfl, rfl, rfl, rfl⟩

theorem spawnStep_punch (env : Env) (w : World) : PunchFrame w (spawnStep env w) := by
  unfold spawnStep spawnEnemy
  simp only
  split_ifs <;> exact ⟨rfl, rfl, rfl, rfl, rfl, rfl, rfl, rfl, rfl, rfl, rfl⟩

/-- The globals that the body of the enemy loop of `update` may write. -/
theorem updateEnemy_writes (env : Env) (w : World) (e : Enemy) :
    ∃ h g p r sh fl sc, (updateEnemy env w e).2 =
      { w with health := h, gameState := g, particles := p, rngCalls := r, shakeIntensity := sh,
               flashIntensity := fl, score := sc } := by
  unfold updateEnemy damageCheck createDebris createParticles
  simp only
  split_ifs <;> exact ⟨_, _, _, _, _, _, _, rfl⟩

theorem updateEnemy_punch (env : Env) (w : World) (e : Enemy) :
    PunchFrame w (updateEnemy env w e).2 := by
  obtain ⟨h, g, p, r, sh, fl, sc, heq⟩ := updateEnemy_writes env w e
  rw [heq]
  exact ⟨rfl, rfl, rfl, rfl, rfl, rfl, rfl, rfl, rfl, rfl, rfl⟩

theorem updateEnemy_level (env : Env) (w : World) (e : Enemy) :
    (updateEnemy env w e).2.level = w.level := by
  obtain ⟨h, g, p, r, sh, fl, sc, heq⟩ := updateEnemy_writes env w e
  rw [heq]

theorem compactEnemies_punch (w : World) : PunchFrame w (compactEnemies w) :=
  ⟨rfl, rfl, rfl, rfl, rfl, rfl, rfl, rfl, rfl, rfl, rfl⟩

theorem particlePass_punch (w : World) : PunchFrame w (particlePass w) :=
  ⟨rfl, rfl, rfl, rfl, rfl, rfl, rfl, rfl, rfl, rfl, rfl⟩

theorem shockwavePass_punch (w : World) : PunchFrame w (shockwavePass w) :=
  ⟨rfl, rfl, rfl, rfl, rfl, rfl, rfl, rfl, rfl, rfl, rfl⟩

theorem textPass_punch (w : World) : PunchFrame w (textPass w) :=
  ⟨rfl, rfl, rfl, rfl, rfl, rfl, rfl, rfl, rfl, rfl, rfl⟩

theorem decayEffects_vital (w : World) : VitalFrame w (decayEffects w) := by
  unfold decayEffects
  simp only
  split_ifs <;> exact ⟨rfl, rfl, rfl, rfl, rfl, rfl⟩

theorem movePlayer_vital (w : World) : VitalFrame w (movePlayer w) := by
  unfold movePlayer
  simp only
  split_ifs <;> exact ⟨rfl, rfl, rfl, rfl, rfl, rfl⟩

theorem spawnStep_vital (env : Env) (w : World) : VitalFrame w (spawnStep env w) := by
  unfold spawnStep spawnEnemy
  simp only
  split_ifs <;> exact ⟨rfl, rfl, rfl, rfl, rfl, rfl⟩

theorem compactEnemies_vital (w : World) : VitalFrame w (compactEnemies w) :=
  ⟨rfl, rfl, rfl, rfl, rfl, rfl⟩

theorem particlePass_vital (w : World) : VitalFrame w (particlePass w) :=
  ⟨rfl, rfl, rfl, rfl, rfl, rfl⟩

theorem shockwavePass_vital (w : World) : VitalFrame w (shockwavePass w) :=
  ⟨rfl, rfl, rfl, rfl, rfl, rfl⟩

theorem textPass_vital (w : World) : VitalFrame w (textPass w) :=
  ⟨rfl, rfl, rfl, rfl, rfl, rfl⟩

theorem triggerImpact_vital (env : Env) (x y s : ℚ) (w : World) : VitalFrame w (triggerImpact env x y s w) := by
  unfold triggerImpact createParticles
  simp only
  split_ifs <;> exact ⟨rfl, rfl, rfl, rfl, rfl, rfl⟩

theorem collideEnemy_vital (env : Env) (cx y s : ℚ) (w : World) (n : ℤ) (e : Enemy) : VitalFrame w ((collideEnemy env cx y s (w, n) e).2.1) := by
  unfold collideEnemy createDebris
  simp only
  split_ifs <;> exact ⟨rfl, rfl, rfl, rfl, rfl, rfl⟩

theorem smashMove_vital (w : World) : VitalFrame w (smashMove w) := by
  unfold smashMove
  simp only
  split_ifs <;> exact ⟨rfl, rfl, rfl, rfl, rfl, rfl⟩

theorem enemyPass_punch (env : Env) (w : World) : PunchFrame w (enemyPass env w) := by
  have h := forEnemies_state (updateEnemy env) (PunchFrame w)
    (fun s e hs => punchFrame_trans hs (updateEnemy_punch env s e)) w.enemies w (punchFrame_refl w)
  exact ⟨h.1, h.2, h.3, h.4, h.5, h.6, h.7, h.8, h.9, h.10, h.11⟩

/-- The phases of `prePunch` as a composition. -/
theorem prePunch_eq (env : Env) (w : World) :
    prePunch env w = textPass (shockwavePass (particlePass (compactEnemies (enemyPass env
      (spawnStep env (movePlayer (levelStep (decayEffects { w with frames := w.frames + 1 })))))))) :=
  rfl

theorem prePunch_punch (env : Env) (w : World) :
    PunchFrame { w with frames := w.frames + 1 } (prePunch env w) := by
  rw [prePunch_eq]
  have h1 := decayEffects_punch { w with frames := w.frames + 1 }
  have h2 := punchFrame_trans h1 (levelStep_punch _)
  have h3 := punchFrame_trans h2 (movePlayer_punch _)
  have h4 := punchFrame_trans h3 (spawnStep_punch env _)
  have h5 := punchFrame_trans h4 (enemyPass_punch env _)
  have h6 := punchFrame_trans h5 (compactEnemies_punch _)
  have h7 := punchFrame_trans h6 (particlePass_punch _)
  have h8 := punchFrame_trans h7 (shockwavePass_punch _)
  exact punchFrame_trans h8 (textPass_punch _)

theorem clapStep_vital (env : Env) (cx y s d g : ℚ) (w : World) :
    VitalFrame w (clapStep env cx y s d g w) := by
  unfold clapStep
  split_ifs
  · have h := triggerImpact_vital env cx y s w
    exact ⟨h.1, h.2, h.3, h.4, h.5, h.6⟩
  · exact vitalFrame_refl w
  · exact vitalFrame_refl w

theorem killSweep_vital (env : Env) (cx y s : ℚ) (w : World) :
    VitalFrame w (killSweep env cx y s w) := by
  have h := forEnemies_state (collideEnemy env cx y s) (fun acc => VitalFrame w acc.1)
    (fun acc e hs => vitalFrame_trans hs (collideEnemy_vital env cx y s acc.1 acc.2 e)) w.enemies (w, 0)
    (vitalFrame_refl w)
  unfold killSweep
  simp only
  split_ifs <;> exact ⟨h.1, h.2, h.3, h.4, h.5, h.6⟩

theorem checkCollision_vital (env : Env) (x1 x2 y : ℚ) (w : World) :
    VitalFrame w (checkCollision env x1 x2 y w) :=
  vitalFrame_trans (clapStep_vital env _ _ _ _ _ w) (killSweep_vital env _ _ _ _)

theorem smashCollide_vital (env : Env) (w : World) : VitalFrame w (smashCollide env w) := by
  unfold smashCollide
  split_ifs
  · exact checkCollision_vital env _ _ _ w
  · exact vitalFrame_refl w

theorem smashExit_vital (w : World) : VitalFrame w (smashExit w) := by
  unfold smashExit
  split_ifs <;> exact ⟨rfl, rfl, rfl, rfl, rfl, rfl⟩

theorem smashStep_vital (env : Env) (w : World) : VitalFrame w (smashStep env w) :=
  vitalFrame_trans (vitalFrame_trans (smashMove_vital w) (smashCollide_vital env _)) (smashExit_vital _)

theorem windupStep_vital (w : World) : VitalFrame w (windupStep w) := by
  unfold windupStep
  simp only
  split_ifs <;> exact ⟨rfl, rfl, rfl, rfl, rfl, rfl⟩

theorem holdStep_vital (w : World) : VitalFrame w (holdStep w) := by
  unfold holdStep
  simp only
  split_ifs <;> exact ⟨rfl, rfl, rfl, rfl, rfl, rfl⟩

theorem recoverStep_vital (env : Env) (w : World) : VitalFrame w (recoverStep env w) := by
  unfold recoverStep
  simp only
  split_ifs <;> exact ⟨rfl, rfl, rfl, rfl, rfl, rfl⟩

theorem punchStep_vital (env : Env) (w : World) : VitalFrame w (punchStep env w) := by
  unfold punchStep
  split
  · exact ⟨rfl, rfl, rfl, rfl, rfl, rfl⟩
  · exact windupStep_vital w
  · exact smashStep_vital env w
  · exact holdStep_vital w
  · exact recoverStep_vital env w

/-! ### C5: hit-stop -/

theorem update_frozen (env : Env) (w : World) (hp : w.gameState = GameState.PLAYING)
    (hs : 0 < w.hitStop) : update env w = { w with hitStop := w.hitStop - 1 } := by
  unfold update
  simp [hp, hs]

theorem update_active (env : Env) (w : World) (hp : w.gameState = GameState.PLAYING)
    (hs : w.hitStop ≤ 0) : update env w = activeTick env w := by
  unfold update
  simp [hp, not_lt.mpr hs]

theorem update_not_playing (env : Env) (w : World) (hp : w.gameState ≠ GameState.PLAYING) :
    update env w = w := by
  unfold update
  simp [hp]

theorem activeTick_frames (env : Env) (w : World) : (activeTick env w).frames = w.frames + 1 := by
  unfold activeTick
  rw [(punchStep_vital env _).frames, (prePunch_punch env w).frames]

/-- C5: in a Playing state with hit-stop counter `n > 0`, one call of `update`
returns the same state with only the hit-stop counter changed to `n - 1`; from
hit-stop 4, four calls leave everything else unchanged and bring the counter
to 0, and the fifth call is a normal update that increments the frame counter. -/
theorem hitStop_freezes (env : Env) (w : World) (n : ℤ) (hp : w.gameState = GameState.PLAYING)
    (hn : 0 < n) (hs : w.hitStop = n) :
    update env w = { w with hitStop := n - 1 } ∧
      (n = 4 → (update env)^[4] w = { w with hitStop := 0 } ∧
        ((update env)^[5] w).frames = w.frames + 1) := by
  refine ⟨by rw [update_frozen env w hp (hs ▸ hn), hs], fun h4 => ?_⟩
  subst h4
  have e1 : update env w = { w with hitStop := 3 } := by
    rw [update_frozen env w hp (by omega), hs]; rfl
  have e2 : update env { w with hitStop := 3 } = { w with hitStop := 2 } :=
    update_frozen env { w with hitStop := 3 } hp (show (0 : ℤ) < 3 by norm_num)
  have e3 : update env { w with hitStop := 2 } = { w with hitStop := 1 } :=
    update_frozen env { w with hitStop := 2 } hp (show (0 : ℤ) < 2 by norm_num)
  have e4 : update env { w with hitStop := 1 } = { w with hitStop := 0 } :=
    update_frozen env { w with hitStop := 1 } hp (show (0 : ℤ) < 1 by norm_num)
  have h : (update env)^[4] w = { w with hitStop := 0 } := by
    simp only [Function.iterate_succ, Function.iterate_zero, Function.comp_apply, id_eq, e1, e2,
      e3, e4]
  refine ⟨h, ?_⟩
  rw [Function.iterate_succ_apply', h,
    update_active env { w with hitStop := 0 } hp (le_refl (0 : ℤ)), activeTick_frames]

theorem hitStop_freezes_witness :
    worldFrozen.gameState = GameState.PLAYING ∧ (0 : ℤ) < 4 ∧ worldFrozen.hitStop = 4 ∧
      (update envSample)^[4] worldFrozen = { worldFrozen with hitStop := 0 } ∧
      ((update envSample)^[5] worldFrozen).frames = worldFrozen.frames + 1 :=
  ⟨by decide, by decide, rfl,
    (hitStop_freezes envSample worldFrozen 4 (by decide) (by decide) rfl).2 rfl⟩

/-! ### C8: level recomputation -/

theorem levelStep_level (w : World) :
    (levelStep w).level = max w.level (min 4 (Int.tdiv w.score 1000 + 1)) := by
  unfold levelStep
  simp only
  split_ifs with h
  · exact (max_eq_right (le_of_lt h)).symm
  · exact (max_eq_left (not_lt.mp h)).symm

theorem levelStep_of_not_lt (w : World) (h : ¬ w.level < (levelStep w).level) : levelStep w = w := by
  unfold levelStep at h ⊢
  simp only at h ⊢
  split_ifs with h'
  · rw [if_pos h'] at h
    exact absurd h' h
  · rfl

theorem levelStep_of_lt (w : World) (h : w.level < (levelStep w).level) :
    (levelStep w).shakeIntensity = 30 ∧ (levelStep w).flashIntensity = 1 / 2 := by
  unfold levelStep at h ⊢
  simp only at h ⊢
  split_ifs with h'
  · exact ⟨rfl, rfl⟩
  · rw [if_neg h'] at h
    exact absurd h (lt_irrefl _)

theorem levelStep_idem (w : World) : levelStep (levelStep w) = levelStep w := by
  apply levelStep_of_not_lt
  have hs : (levelStep w).score = w.score := by
    unfold levelStep
    simp only
    split_ifs <;> rfl
  rw [levelStep_level (levelStep w), hs, levelStep_level w]
  simp

theorem decayEffects_score (w : World) : (decayEffects w).score = w.score := by
  unfold decayEffects
  simp only
  split_ifs <;> rfl

theorem enemyPass_level (env : Env) (w : World) : (enemyPass env w).level = w.level :=
  forEnemies_state (updateEnemy env) (fun s => s.level = w.level)
    (fun s e hs => (updateEnemy_level env s e).trans hs) w.enemies w rfl

theorem activeTick_level (env : Env) (w : World) :
    (activeTick env w).level = max w.level (min 4 (Int.tdiv w.score 1000 + 1)) := by
  unfold activeTick
  rw [(punchStep_vital env _).level, prePunch_eq, (textPass_vital _).level,
    (shockwavePass_vital _).level, (particlePass_vital _).level, (compactEnemies_vital _).level,
    enemyPass_level, (spawnStep_vital env _).level, (movePlayer_vital _).level, levelStep_level,
    (decayEffects_vital _).level, decayEffects_score]

/-- C8: on a tick that is not frozen, the level after the level recomputation,
and at the end of the tick, is `max L (min 4 (s / 1000 + 1))` with integer
division; it never exceeds `max L 4`; scores 1000, 2000, 3000 give levels 2, 3,
4; the step sets shake to 30 and flash to 0.5 exactly when the level increases
and otherwise changes nothing, and repeating it on its result changes nothing. -/
theorem level_recompute (env : Env) (w : World) :
    (levelStep w).level = max w.level (min 4 (Int.tdiv w.score 1000 + 1)) ∧
      (w.gameState = GameState.PLAYING → w.hitStop ≤ 0 →
        (update env w).level = max w.level (min 4 (Int.tdiv w.score 1000 + 1))) ∧
      (levelStep w).level ≤ max w.level 4 ∧
      (w.level < (levelStep w).level →
        (levelStep w).shakeIntensity = 30 ∧ (levelStep w).flashIntensity = 1 / 2) ∧
      (¬ w.level < (levelStep w).level → levelStep w = w) ∧
      levelStep (levelStep w) = levelStep w ∧
      (w.level ≤ 2 → w.score = 1000 → (levelStep w).level = 2) ∧
      (w.level ≤ 3 → w.score = 2000 → (levelStep w).level = 3) ∧
      (w.level ≤ 4 → w.score = 3000 → (levelStep w).level = 4) := by
  refine ⟨levelStep_level w, fun hp hs => ?_, ?_, levelStep_of_lt w, levelStep_of_not_lt w,
    levelStep_idem w, fun hl h => ?_, fun hl h => ?_, fun hl h => ?_⟩
  · rw [update_active env w hp hs, activeTick_level]
  · rw [levelStep_level]
    exact max_le_max (le_refl _) (min_le_left _ _)
  · rw [levelStep_level, h]
    have : min (4 : ℤ) (Int.tdiv 1000 1000 + 1) = 2 := by decide
    rw [this]
    exact max_eq_right hl
  · rw [levelStep_level, h]
    have : min (4 : ℤ) (Int.tdiv 2000 1000 + 1) = 3 := by decide
    rw [this]
    exact max_eq_right hl
  · rw [levelStep_level, h]
    have : min (4 : ℤ) (Int.tdiv 3000 1000 + 1) = 4 := by decide
    rw [this]
    exact max_eq_right hl

theorem level_recompute_witness :
    worldStart.gameState = GameState.PLAYING ∧ worldStart.hitStop ≤ 0 ∧
      (update envSample { worldStart with score := 2000 }).level = 3 ∧
      (levelStep { worldStart with score := 2000 }).shakeIntensity = 30 ∧
      (levelStep { worldStart with score := 2000 }).flashIntensity = 1 / 2 :=
  ⟨by decide, by decide,
    ((level_recompute envSample { worldStart with score := 2000 }).2.1 (by decide) (by decide)).trans
      (by decide),
    (level_recompute envSample { worldStart with score := 2000 }).2.2.2.1 (by decide!)⟩

/-! ### C9: game over -/

/-- The body of the enemy loop either leaves health and session state alone or
subtracts 20 and ends the session when the result is not positive. -/
theorem updateEnemy_health (env : Env) (s : World) (e : Enemy) :
    ((updateEnemy env s e).2.health = s.health ∧ (updateEnemy env s e).2.gameState = s.gameState) ∨
      ((updateEnemy env s e).2.health = s.health - 20 ∧
        (updateEnemy env s e).2.gameState
          = if s.health - 20 ≤ 0 then GameState.GAME_OVER else s.gameState) := by
  unfold updateEnemy damageCheck createDebris createParticles
  simp only
  split_ifs <;> first | exact Or.inl ⟨rfl, rfl⟩ | (right; simp [*]) 

theorem levelStep_health (w : World) :
    (levelStep w).health = w.health ∧ (levelStep w).gameState = w.gameState := by
  unfold levelStep
  simp only
  split_ifs <;> exact ⟨rfl, rfl⟩

theorem updateEnemy_damageInv (env : Env) (h0 : ℚ) (g0 : GameState) (s : World) (e : Enemy)
    (h : DamageInv h0 g0 s) : DamageInv h0 g0 (updateEnemy env s e).2 := by
  obtain ⟨h1, h2, h3, h4, h5⟩ := h
  rcases updateEnemy_health env s e with ⟨hh, hg⟩ | ⟨hh, hg⟩
  · rw [DamageInv, hh, hg]
    exact ⟨h1, h2, h3, h4, h5⟩
  · rw [DamageInv, hh, hg]
    refine ⟨by linarith, ?_, ?_, ?_, ?_⟩
    · intro _ hle
      rw [if_pos hle]
    · intro heq
      exfalso
      linarith
    · intro hg0 hpos hpl
      by_cases hle : s.health - 20 ≤ 0
      · rw [if_pos hle] at hpl
        exact absurd hpl (by decide)
      · exact not_le.mp hle
    · intro hg0
      split_ifs
      · decide
      · exact h5 hg0

theorem enemyPass_damageInv (env : Env) (w : World) :
    DamageInv w.health w.gameState (enemyPass env w) := by
  have h := forEnemies_state (updateEnemy env) (DamageInv w.health w.gameState)
    (fun s e hs => updateEnemy_damageInv env _ _ s e hs) w.enemies w
    ⟨le_refl _, fun h => absurd h (lt_irrefl _), fun _ => rfl, fun _ hpos _ => hpos, fun h => h⟩
  exact h

theorem activeTick_damageInv (env : Env) (w : World) :
    DamageInv w.health w.gameState (activeTick env w) := by
  have hpre : (spawnStep env (movePlayer (levelStep (decayEffects
      { w with frames := w.frames + 1 })))).health = w.health ∧
      (spawnStep env (movePlayer (levelStep (decayEffects
      { w with frames := w.frames + 1 })))).gameState = w.gameState := by
    rw [(spawnStep_vital env _).health, (movePlayer_vital _).health, (levelStep_health _).1,
      (decayEffects_vital _).health, (spawnStep_vital env _).gameState,
      (movePlayer_vital _).gameState, (levelStep_health _).2, (decayEffects_vital _).gameState]
    exact ⟨rfl, rfl⟩
  have h := enemyPass_damageInv env (spawnStep env (movePlayer (levelStep (decayEffects
      { w with frames := w.frames + 1 }))))
  rw [hpre.1, hpre.2] at h
  have hh : (activeTick env w).health = (enemyPass env (spawnStep env (movePlayer (levelStep
      (decayEffects { w with frames := w.frames + 1 }))))).health := by
    unfold activeTick
    rw [(punchStep_vital env _).health, prePunch_eq, (textPass_vital _).health,
      (shockwavePass_vital _).health, (particlePass_vital _).health,
      (compactEnemies_vital _).health]
  have hg : (activeTick env w).gameState = (enemyPass env (spawnStep env (movePlayer (levelStep
      (decayEffects { w with frames := w.frames + 1 }))))).gameState := by
    unfold activeTick
    rw [(punchStep_vital env _).gameState, prePunch_eq, (textPass_vital _).gameState,
      (shockwavePass_vital _).gameState, (particlePass_vital _).gameState,
      (compactEnemies_vital _).gameState]
  rw [DamageInv, hh, hg]
  exact h

theorem update_damageInv (env : Env) (w : World) :
    DamageInv w.health w.gameState (update env w) := by
  have hrefl : ∀ s : World, s.health = w.health → s.gameState = w.gameState →
      DamageInv w.health w.gameState s := fun s h1 h2 => by
    rw [DamageInv, h1, h2]
    exact ⟨le_refl _, fun h => absurd h (lt_irrefl _), fun _ => rfl, fun _ hpos _ => hpos, fun h => h⟩
  unfold update
  split_ifs
  · exact hrefl w rfl rfl
  · exact hrefl _ rfl rfl
  · exact activeTick_damageInv env w

theorem update_iterate_not_playing (env : Env) (w : World) (hp : w.gameState ≠ GameState.PLAYING) :
    ∀ n : ℕ, (update env)^[n] w = w := by
  intro n
  induction n with
  | zero => rfl
  | succ n ih => rw [Function.iterate_succ_apply', ih, update_not_playing env w hp]

/-- C9: a call of `update` in which damage brings health to 0 or below ends in
session state GameOver (for the single damage step and for the whole call), and
a call of `update` on a state whose session is not Playing returns the state
unchanged, however often it is repeated. -/
theorem gameOver_when_health_spent (env : Env) (w : World) :
    (∀ e, (damageCheck env w e).2.health < w.health → (damageCheck env w e).2.health ≤ 0 →
        (damageCheck env w e).2.gameState = GameState.GAME_OVER) ∧
      ((update env w).health < w.health → (update env w).health ≤ 0 →
        (update env w).gameState = GameState.GAME_OVER) ∧
      (w.gameState ≠ GameState.PLAYING → update env w = w) ∧
      (w.gameState ≠ GameState.PLAYING → tick env w = w) ∧
      (w.gameState ≠ GameState.PLAYING → ∀ n : ℕ, (update env)^[n] w = w) := by
  refine ⟨fun e h1 h2 => ?_, (update_damageInv env w).2.1, update_not_playing env w, fun hp => ?_,
    update_iterate_not_playing env w⟩
  · unfold damageCheck at h1 h2 ⊢
    unfold createDebris at h1 h2 ⊢
    simp only at h1 h2 ⊢
    split_ifs at h1 h2 ⊢ with a b
    · rfl
    · exact absurd h2 b
    · exact absurd h1 (lt_irrefl _)
  · unfold tick
    rw [if_neg hp]

theorem gameOver_when_health_spent_witness :
    (update envSample worldLastHit).health < worldLastHit.health ∧
      (update envSample worldLastHit).health ≤ 0 ∧
      (update envSample worldLastHit).gameState = GameState.GAME_OVER :=
  ⟨by decide!, by decide!,
    (gameOver_when_health_spent envSample worldLastHit).2.1 (by decide!) (by decide!)⟩

/-! ### C10: the punch state machine -/

/-- The globals that `triggerImpact` may write. -/
theorem triggerImpact_writes (env : Env) (x y s : ℚ) (w : World) :
    ∃ ic sh sw ps rc cz fl, triggerImpact env x y s w =
      { w with impactCalls := ic, shakeIntensity := sh, shockwaves := sw, particles := ps,
               rngCalls := rc, camZoom := cz, flashIntensity := fl } := by
  unfold triggerImpact createParticles
  simp only
  split_ifs <;> exact ⟨_, _, _, _, _, _, _, rfl⟩

theorem clapStep_writes (env : Env) (cx y s d g : ℚ) (w : World) :
    CollisionWrites w (clapStep env cx y s d g w) := by
  unfold clapStep
  split_ifs
  · obtain ⟨ic, sh, sw, ps, rc, cz, fl, h⟩ := triggerImpact_writes env cx y s w
    rw [h]
    exact ⟨_, _, _, _, _, _, _, _, _, _, _, _, rfl⟩
  · exact ⟨_, _, _, _, _, _, _, _, _, _, _, _, rfl⟩
  · exact ⟨_, _, _, _, _, _, _, _, _, _, _, _, rfl⟩

theorem collideEnemy_writes (env : Env) (cx y s : ℚ) (w : World) (acc : World × ℤ) (e : Enemy)
    (h : CollisionWrites w acc.1) : CollisionWrites w (collideEnemy env cx y s acc e).2.1 := by
  obtain ⟨ic, hs, sh, sw, ps, rc, cz, fl, es, sc, ft, st, h⟩ := h
  obtain ⟨a, n⟩ := acc
  simp only at h
  subst h
  unfold collideEnemy createDebris
  simp only
  split_ifs <;> exact ⟨_, _, _, _, _, _, _, _, _, _, _, _, rfl⟩

theorem killSweep_writes (env : Env) (cx y s : ℚ) (w0 w : World) (h : CollisionWrites w0 w) :
    CollisionWrites w0 (killSweep env cx y s w) := by
  have h' := forEnemies_state (collideEnemy env cx y s) (fun acc => CollisionWrites w0 acc.1)
    (fun acc e hs => collideEnemy_writes env cx y s w0 acc e hs) w.enemies (w, 0) h
  obtain ⟨ic, hs, sh, sw, ps, rc, cz, fl, es, sc, ft, st, h'⟩ := h'
  unfold killSweep
  simp only
  rw [h']
  split_ifs <;> exact ⟨_, _, _, _, _, _, _, _, _, _, _, _, rfl⟩

theorem checkCollision_writes (env : Env) (x1 x2 y : ℚ) (w : World) :
    CollisionWrites w (checkCollision env x1 x2 y w) :=
  killSweep_writes env _ _ _ w _ (clapStep_writes env _ _ _ _ _ w)

theorem smashCollide_phase (env : Env) (w : World) :
    punchPhase (smashCollide env w) = punchPhase w := by
  unfold smashCollide
  split_ifs
  · obtain ⟨ic, hs, sh, sw, ps, rc, cz, fl, es, sc, ft, st, h⟩ :=
      checkCollision_writes env w.leftArm.x w.rightArm.x w.punchTarget.y w
    rw [h]
    rfl
  · rfl

theorem punchStep_phase (env : Env) (w : World) :
    punchPhase (punchStep env w) = nextPhase (punchPhase w) := by
  unfold punchStep
  split
  next h => simp only [punchPhase, nextPhase, h, idleStep]
  next h =>
    unfold windupStep WINDUP_FRAMES
    simp only [punchPhase, nextPhase, h]
    split_ifs <;> rfl
  next h =>
    have h1 : punchPhase (smashCollide env (smashMove w)) = (PunchState.SMASH, w.punchTimer + 1) := by
      rw [smashCollide_phase]
      unfold smashMove
      simp only [punchPhase]
      split_ifs <;> simp [h]
    unfold smashStep smashExit
    simp only [punchPhase, Prod.mk.injEq] at h1
    simp only [punchPhase, nextPhase, h, h1.2]
    split_ifs <;> simp [h1.1, h1.2]
  next h =>
    unfold holdStep
    simp only [punchPhase, nextPhase, h]
    split_ifs <;> rfl
  next h =>
    unfold recoverStep
    simp only [punchPhase, nextPhase, h]
    split_ifs <;> rfl

theorem activeTick_phase (env : Env) (w : World) :
    punchPhase (activeTick env w) = nextPhase (punchPhase w) := by
  unfold activeTick
  rw [punchStep_phase]
  simp only [punchPhase, (prePunch_punch env w).punchState, (prePunch_punch env w).punchTimer]

theorem nextPhase_phaseAfter (n : ℕ) : nextPhase (phaseAfter n) = phaseAfter (n + 1) := by
  by_cases h : n ≤ 33
  · interval_cases n <;> decide
  · have h1 : ¬ n ≤ 8 := by omega
    have h2 : ¬ n ≤ 14 := by omega
    have h3 : ¬ n ≤ 21 := by omega
    have h4 : ¬ n ≤ 32 := by omega
    have h1' : ¬ n + 1 ≤ 8 := by omega
    have h2' : ¬ n + 1 ≤ 14 := by omega
    have h3' : ¬ n + 1 ≤ 21 := by omega
    have h4' : ¬ n + 1 ≤ 32 := by omega
    simp only [phaseAfter, h1, h2, h3, h4, h1', h2', h3', h4', if_false, nextPhase]

theorem triggerPunch_phase (env : Env) (w : World) :
    punchPhase (triggerPunch env w) = (PunchState.WINDUP, 0) := by
  unfold triggerPunch
  simp only
  split
  · split <;> rfl
  · rfl

theorem update_phase_frozen (env : Env) (w : World) (h : ¬ nonFrozen w) :
    punchPhase (update env w) = punchPhase w := by
  unfold update
  split_ifs with h1 h2
  · rfl
  · rfl
  · exact absurd ⟨not_not.mp h1, not_lt.mp h2⟩ h

theorem update_phase (env : Env) (w : World) (h : nonFrozen w) :
    punchPhase (update env w) = nextPhase (punchPhase w) := by
  rw [update_active env w h.1 h.2, activeTick_phase]

theorem punchPhase_iterate (env : Env) :
    ∀ (n : ℕ) (w : World) (m : ℕ), punchPhase w = phaseAfter m →
      punchPhase ((update env)^[n] w) = phaseAfter (m + activeTicks env n w) := by
  intro n
  induction n with
  | zero => intro w m h; simpa [activeTicks] using h
  | succ n ih =>
    intro w m h
    rw [Function.iterate_succ_apply]
    by_cases hf : nonFrozen w
    · have h1 : punchPhase (update env w) = phaseAfter (m + 1) := by
        rw [update_phase env w hf, h, nextPhase_phaseAfter]
      rw [ih (update env w) (m + 1) h1]
      simp only [activeTicks, if_pos hf]
      congr 1
      omega
    · have h1 : punchPhase (update env w) = phaseAfter m := by
        rw [update_phase_frozen env w hf, h]
      rw [ih (update env w) m h1]
      simp only [activeTicks, if_neg hf]
      congr 1
      omega

/-- C10 (amended): after a punch is triggered, and counting only the ticks
that are not frozen, the machine is in Windup with timer `n` after tick `n`
for `n ≤ 8` and enters Smash with timer 0 on tick 9; it enters Hold on tick 15,
Recover on tick 22 and Idle on tick 33 (`phaseAfter`), so the Windup, Smash,
Hold and Recover branches run on 9, 6, 7 and 11 ticks; there is no other
transition, and a frozen tick changes neither state nor timer. -/
theorem punch_schedule (env : Env) (w : World) (n : ℕ) :
    punchPhase ((update env)^[n] (triggerPunch env w))
        = phaseAfter (activeTicks env n (triggerPunch env w)) ∧
      ∀ w' : World, ¬ nonFrozen w' → punchPhase (update env w') = punchPhase w' := by
  refine ⟨?_, fun w' hw' => update_phase_frozen env w' hw'⟩
  have h := punchPhase_iterate env n (triggerPunch env w) 0 (triggerPunch_phase env w)
  rw [Nat.zero_add] at h
  exact h

theorem punch_schedule_witness :
    activeTicks envSample 19 (triggerPunch envSample worldPunch) = 15 ∧
      ((update envSample)^[13] (triggerPunch envSample worldPunch)).hitStop = 4 ∧
      punchPhase ((update envSample)^[19] (triggerPunch envSample worldPunch))
        = (PunchState.HOLD, 0) :=
  ⟨by decide!, by decide!,
    ((punch_schedule envSample worldPunch 19).1).trans (by decide!)⟩

/-- C10 as stated fails: of the 40 updates that follow a trigger in a fresh
session, none frozen, the first 9 start in Windup (not 8), the next 6 in Smash
(not 5), the next 7 in Hold (not 6) and the next 11 in Recover (not at most
10); Idle is reached by the 33rd update, not by the 29th. -/
theorem punch_schedule_off_by_one :
    punchTrace envSample 40 (triggerPunch envSample worldStart)
      = List.replicate 9 (PunchState.WINDUP, true) ++ List.replicate 6 (PunchState.SMASH, true) ++
          List.replicate 7 (PunchState.HOLD, true) ++ List.replicate 11 (PunchState.RECOVER, true) ++
          List.replicate 7 (PunchState.IDLE, true) := by
  decide!

/-! ### C4: one impact per punch cycle -/

theorem triggerImpact_impactCalls (env : Env) (x y s : ℚ) (w : World) :
    (triggerImpact env x y s w).impactCalls = w.impactCalls + 1 ∧
      (triggerImpact env x y s w).hasSmashImpacted = w.hasSmashImpacted := by
  unfold triggerImpact createParticles
  simp only
  split_ifs <;> exact ⟨rfl, rfl⟩

theorem collideEnemy_impact (env : Env) (cx y s : ℚ) (acc : World × ℤ) (e : Enemy) :
    (collideEnemy env cx y s acc e).2.1.impactCalls = acc.1.impactCalls ∧
      (collideEnemy env cx y s acc e).2.1.hasSmashImpacted = acc.1.hasSmashImpacted := by
  unfold collideEnemy createDebris
  simp only
  split_ifs <;> exact ⟨rfl, rfl⟩

theorem killSweep_impact (env : Env) (cx y s : ℚ) (w : World) :
    (killSweep env cx y s w).impactCalls = w.impactCalls ∧
      (killSweep env cx y s w).hasSmashImpacted = w.hasSmashImpacted := by
  have h := forEnemies_state (collideEnemy env cx y s)
    (fun acc => acc.1.impactCalls = w.impactCalls ∧ acc.1.hasSmashImpacted = w.hasSmashImpacted)
    (fun acc e hs => ⟨(collideEnemy_impact env cx y s acc e).1.trans hs.1,
      (collideEnemy_impact env cx y s acc e).2.trans hs.2⟩) w.enemies (w, 0) ⟨rfl, rfl⟩
  unfold killSweep
  simp only
  split_ifs <;> exact h

/-- The impact effect runs in `checkCollision` exactly when the arm gap is at
most `2 * gloveReach` and the one-shot flag is not yet set; the flag is set
whenever the gap condition holds. -/
theorem checkCollision_impact (env : Env) (x1 x2 y : ℚ) (w : World) :
    (checkCollision env x1 x2 y w).impactCalls
        = w.impactCalls + (if decide (|x2 - x1| ≤ 44 * levelScale w.level * 2) &&
            !w.hasSmashImpacted then 1 else 0) ∧
      (checkCollision env x1 x2 y w).hasSmashImpacted
        = (w.hasSmashImpacted || decide (|x2 - x1| ≤ 44 * levelScale w.level * 2)) := by
  unfold checkCollision
  simp only
  rw [(killSweep_impact env _ _ _ _).1, (killSweep_impact env _ _ _ _).2]
  unfold clapStep
  by_cases hg : |x2 - x1| ≤ 44 * levelScale w.level * 2
  · cases hf : w.hasSmashImpacted
    · simp [hg, hf, (triggerImpact_impactCalls env _ _ _ w).1]
    · simp [hg, hf]
  · simp [hg]

theorem smashMove_impact (w : World) :
    (smashMove w).impactCalls = w.impactCalls ∧
      (smashMove w).hasSmashImpacted = w.hasSmashImpacted ∧
      (smashMove w).punchState = w.punchState := by
  unfold smashMove
  simp only
  split_ifs <;> exact ⟨rfl, rfl, rfl⟩

theorem windupStep_impact (w : World) :
    (windupStep w).impactCalls = w.impactCalls ∧
      (windupStep w).hasSmashImpacted = w.hasSmashImpacted := by
  unfold windupStep
  simp only
  split_ifs <;> exact ⟨rfl, rfl⟩

theorem holdStep_impact (w : World) :
    (holdStep w).impactCalls = w.impactCalls ∧
      (holdStep w).hasSmashImpacted = w.hasSmashImpacted := by
  unfold holdStep
  simp only
  split_ifs <;> exact ⟨rfl, rfl⟩

theorem recoverStep_impact (env : Env) (w : World) :
    (recoverStep env w).impactCalls = w.impactCalls ∧
      (recoverStep env w).hasSmashImpacted = w.hasSmashImpacted := by
  unfold recoverStep
  simp only
  split_ifs <;> exact ⟨rfl, rfl⟩

theorem smashExit_impact (w : World) :
    (smashExit w).impactCalls = w.impactCalls ∧
      (smashExit w).hasSmashImpacted = w.hasSmashImpacted := by
  unfold smashExit
  split_ifs <;> exact ⟨rfl, rfl⟩

theorem punchStep_impact (env : Env) (w : World) :
    (punchStep env w).impactCalls
        = w.impactCalls + (if decide (w.punchState = PunchState.SMASH) &&
            smashGate (smashMove w) &&
            decide (|(smashMove w).rightArm.x - (smashMove w).leftArm.x|
              ≤ 44 * levelScale (smashMove w).level * 2) && !w.hasSmashImpacted then 1 else 0) ∧
      (punchStep env w).hasSmashImpacted
        = (w.hasSmashImpacted || (decide (w.punchState = PunchState.SMASH) &&
            smashGate (smashMove w) &&
            decide (|(smashMove w).rightArm.x - (smashMove w).leftArm.x|
              ≤ 44 * levelScale (smashMove w).level * 2))) := by
  unfold punchStep
  split
  next h => simp [h, idleStep]
  next h => rw [(windupStep_impact w).1, (windupStep_impact w).2]; simp [h]
  next h =>
    unfold smashStep
    rw [(smashExit_impact _).1, (smashExit_impact _).2]
    unfold smashCollide
    by_cases hg : smashGate (smashMove w) = true
    · rw [if_pos hg, (checkCollision_impact env _ _ _ _).1, (checkCollision_impact env _ _ _ _).2,
        (smashMove_impact w).1, (smashMove_impact w).2.1]
      simp [h, hg]
    · rw [if_neg hg, (smashMove_impact w).1, (smashMove_impact w).2.1]
      simp [h, hg]
  next h => rw [(holdStep_impact w).1, (holdStep_impact w).2]; simp [h]
  next h => rw [(recoverStep_impact env w).1, (recoverStep_impact env w).2]; simp [h]

theorem update_impact (env : Env) (w : World) :
    (update env w).impactCalls
        = w.impactCalls + (if clapTick env w && !w.hasSmashImpacted then 1 else 0) ∧
      (update env w).hasSmashImpacted = (w.hasSmashImpacted || clapTick env w) := by
  by_cases hp : w.gameState = GameState.PLAYING
  · by_cases hs : 0 < w.hitStop
    · have hc : clapTick env w = false := by simp [clapTick, hs]
      rw [update_frozen env w hp hs, hc]
      simp
    · rw [update_active env w hp (not_lt.mp hs)]
      unfold activeTick
      rw [(punchStep_impact env _).1, (punchStep_impact env _).2,
        (prePunch_punch env w).impactCalls, (prePunch_punch env w).hasSmashImpacted]
      simp [clapTick, hp, hs]
  · have hc : clapTick env w = false := by simp [clapTick, hp]
    rw [update_not_playing env w hp, hc]
    simp

theorem step_impact (env : Env) (w : World) (ev : Event) (h : ev ≠ Event.mouseButtonDown) :
    (step env w ev).impactCalls
        = w.impactCalls + (if (decide (ev = Event.tick) && clapTick env w) && !w.hasSmashImpacted
            then 1 else 0) ∧
      (step env w ev).hasSmashImpacted
        = (w.hasSmashImpacted || (decide (ev = Event.tick) && clapTick env w)) := by
  cases ev with
  | tick =>
    have ht : step env w Event.tick = update env w := by
      unfold step tick
      split_ifs with hp
      · rfl
      · exact (update_not_playing env w hp).symm
    rw [ht, (update_impact env w).1, (update_impact env w).2]
    simp
  | mouseMotion x y => simp [step, mouseMotion]
  | mouseButtonDown => exact absurd rfl h
  | windowResized W H => simp [step, windowResized]

theorem impact_count (n : ℕ) (f c s : Bool) :
    (n + (if c && !f then 1 else 0)) + (if s && !(f || c) then 1 else 0)
        = n + (if (c || s) && !f then 1 else 0) ∧
      ((f || c) || s) = (f || (c || s)) := by
  cases f <;> cases c <;> cases s <;> simp

theorem run_impact (env : Env) :
    ∀ (evs : List Event) (w : World), (∀ ev ∈ evs, ev ≠ Event.mouseButtonDown) →
      (run env w evs).impactCalls
          = w.impactCalls + (if clapSeen env w evs && !w.hasSmashImpacted then 1 else 0) ∧
        (run env w evs).hasSmashImpacted = (w.hasSmashImpacted || clapSeen env w evs) := by
  intro evs
  induction evs with
  | nil => intro w _; simp [run, clapSeen]
  | cons ev evs ih =>
    intro w h
    have h1 := step_impact env w ev (h ev (List.mem_cons_self _ _))
    have h2 := ih (step env w ev) (fun e he => h e (List.mem_cons_of_mem _ he))
    simp only [run, clapSeen]
    rw [h2.1, h2.2, h1.1, h1.2]
    exact impact_count _ _ _ _

theorem triggerPunch_impact (env : Env) (w : World) :
    (triggerPunch env w).impactCalls = w.impactCalls ∧
      (triggerPunch env w).hasSmashImpacted = false := by
  unfold triggerPunch
  simp only
  split
  · split <;> exact ⟨rfl, rfl⟩
  · exact ⟨rfl, rfl⟩

/-- C4: within one punch cycle, that is after `triggerPunch` and over any
sequence of ticks, pointer motions and window resizes, `triggerImpact` is
executed exactly once if some collision check of the cycle sees an arm gap of
at most `2 * gloveReach`, and not at all otherwise; so never more than once,
however many ticks satisfy the gap condition. -/
theorem impact_once_per_cycle (env : Env) (w : World) (evs : List Event)
    (h : ∀ ev ∈ evs, ev ≠ Event.mouseButtonDown) :
    (run env (triggerPunch env w) evs).impactCalls
      = w.impactCalls + (if clapSeen env (triggerPunch env w) evs then 1 else 0) := by
  rw [(run_impact env evs (triggerPunch env w) h).1, (triggerPunch_impact env w).1,
    (triggerPunch_impact env w).2]
  simp

theorem impact_once_per_cycle_witness :
    (∀ ev ∈ List.replicate 20 Event.tick, ev ≠ Event.mouseButtonDown) ∧
      clapTick envSample (run envSample (triggerPunch envSample worldStart)
        (List.replicate 12 Event.tick)) = true ∧
      clapTick envSample (run envSample (triggerPunch envSample worldStart)
        (List.replicate 13 Event.tick)) = true ∧
      clapTick envSample (run envSample (triggerPunch envSample worldStart)
        (List.replicate 14 Event.tick)) = true ∧
      (run envSample (triggerPunch envSample worldStart) (List.replicate 20 Event.tick)).impactCalls
        = worldStart.impactCalls + 1 :=
  ⟨by decide, by decide!, by decide!, by decide!,
    (impact_once_per_cycle envSample worldStart (List.replicate 20 Event.tick) (by decide)).trans
      (by decide!)⟩

/-! ### C6: health -/

theorem triggerPunch_health (env : Env) (w : World) :
    (triggerPunch env w).health = w.health ∧ (triggerPunch env w).gameState = w.gameState := by
  unfold triggerPunch
  simp only
  split
  · split <;> exact ⟨rfl, rfl⟩
  · exact ⟨rfl, rfl⟩

theorem tick_eq_update (env : Env) (w : World) : tick env w = update env w := by
  unfold tick
  split_ifs with hp
  · rfl
  · exact (update_not_playing env w hp).symm

theorem startPlaying_healthInv (w : World) : HealthInv (startPlaying w) :=
  ⟨le_refl _, fun _ => by norm_num [startPlaying, initGame]⟩

theorem update_healthInv (env : Env) (w : World) (h : HealthInv w) : HealthInv (update env w) := by
  obtain ⟨h1, _, _, h4, h5⟩ := update_damageInv env w
  refine ⟨le_trans h1 h.1, fun hp => ?_⟩
  by_cases hg : w.gameState = GameState.PLAYING
  · exact h4 hg (h.2 hg) hp
  · exact absurd hp (h5 hg)

theorem triggerPunch_healthInv (env : Env) (w : World) (h : HealthInv w) :
    HealthInv (triggerPunch env w) := by
  unfold HealthInv
  rw [(triggerPunch_health env w).1, (triggerPunch_health env w).2]
  exact h

theorem step_healthInv (env : Env) (w : World) (ev : Event) (h : HealthInv w) :
    HealthInv (step env w ev) := by
  cases ev with
  | tick =>
    simp only [step]
    rw [tick_eq_update]
    exact update_healthInv env w h
  | mouseMotion x y => exact h
  | mouseButtonDown =>
    simp only [step]
    unfold mouseButtonDown
    split_ifs
    · exact startPlaying_healthInv w
    · exact triggerPunch_healthInv env w h
    · exact h
  | windowResized W H => exact h

/-- C6 (amended): in every state reachable from `initGame` by ticks, punch
triggers and input events, health is at most 100, and it is positive as long
as the session is Playing; health is not clamped at 0 when the session ends. -/
theorem health_bounds (env : Env) (w : World) (h : Reachable env w) :
    w.health ≤ 100 ∧ (w.gameState = GameState.PLAYING → 0 < w.health) := by
  induction h with
  | start w0 => exact startPlaying_healthInv w0
  | event w ev _ ih => exact step_healthInv env w ev ih
  | update w _ ih => exact update_healthInv env w ih
  | punch w _ ih => exact triggerPunch_healthInv env w ih

theorem reachable_iterate (env : Env) (w : World) (h : Reachable env w) (n : ℕ) :
    Reachable env ((update env)^[n] w) := by
  induction n with
  | zero => exact h
  | succ n ih =>
    rw [Function.iterate_succ_apply']
    exact Reachable.update _ ih

theorem health_bounds_witness :
    Reachable envDuel ((update envDuel)^[60] worldDuel) ∧
      ((update envDuel)^[60] worldDuel).health ≤ 100 ∧
      (((update envDuel)^[60] worldDuel).gameState = GameState.PLAYING →
        0 < ((update envDuel)^[60] worldDuel).health) :=
  ⟨reachable_iterate envDuel worldDuel (Reachable.start _) 60,
    health_bounds envDuel _ (reachable_iterate envDuel worldDuel (Reachable.start _) 60)⟩

/-- C6 as stated fails: health is not clamped at 0.  In a window of width 30
and height 404 six enemies of size 30 spawn at frames 60, 120, ..., 360, all at
x = 15 after the wall clamps.  Four of them touch the player one by one and
bring health to 20; the fifth (fall speed 2) and the sixth (fall speed 4) are
at heights 208 and 206 after tick 418 and both touch the player in tick 419:
each subtracts 20 and health ends at -20. -/
theorem health_negative_reachable :
    Reachable envDuel ((update envDuel)^[419] worldDuel) ∧
      ((update envDuel)^[418] worldDuel).health = 20 ∧
      ((update envDuel)^[418] worldDuel).enemies.map (fun e => (enemyPos e, e.size, e.active))
        = [(⟨15, 208⟩, 30, true), (⟨15, 206⟩, 30, true)] ∧
      ((update envDuel)^[419] worldDuel).health = -20 :=
  ⟨reachable_iterate envDuel worldDuel (Reachable.start _) 419, by decide!⟩

/-! ### C7: the wall-bounce invariant -/

theorem moveEnemy_inField (env : Env) (f W : ℤ) (e : Enemy) (h : e.size ≤ (W : ℚ)) :
    inField W (moveEnemy env f W e) := by
  unfold inField moveEnemy
  simp only
  split_ifs <;> constructor <;> simp only <;> linarith

theorem moveEnemy_flip (env : Env) (f W : ℤ) (e : Enemy) (h : e.size ≤ (W : ℚ))
    (hc : wasClamped env f W e) : (moveEnemy env f W e).vx = -e.vx := by
  unfold wasClamped preClampX at hc
  unfold moveEnemy
  simp only
  split_ifs with h1 h2 h3
  · exfalso
    simp only at h2
    linarith
  · simp
  · simp
  · exfalso
    rcases hc with hc | hc
    · exact h1 hc
    · exact h3 hc

theorem updateEnemy_fst (env : Env) (s : World) (e : Enemy) :
    (e.active = false ∧ (updateEnemy env s e).1 = e) ∨
      (e.active = true ∧ (updateEnemy env s e).1.size = e.size ∧
        simOf (updateEnemy env s e).1 = simOf (moveEnemy env s.frames s.WINDOW_WIDTH e)) := by
  cases ha : e.active
  · left
    refine ⟨rfl, ?_⟩
    unfold updateEnemy
    simp only [ha, Bool.not_false, if_true]
  · right
    refine ⟨rfl, ?_, updateEnemy_motion env s e ha⟩
    have hm := moveEnemy_size env s.frames s.WINDOW_WIDTH e
    unfold updateEnemy damageCheck floorCheck
    simp only [ha, Bool.not_true, Bool.false_eq_true, if_false]
    split_ifs <;> exact hm

theorem updateEnemy_inField (env : Env) (s : World) (e : Enemy) :
    (updateEnemy env s e).1.active = true → (updateEnemy env s e).1.size ≤ (s.WINDOW_WIDTH : ℚ) →
      inField s.WINDOW_WIDTH (updateEnemy env s e).1 := by
  rcases updateEnemy_fst env s e with ⟨ha, he⟩ | ⟨_, hs, hm⟩
  · rw [he]
    intro h
    rw [ha] at h
    exact absurd h (by decide)
  · intro _ hW
    rw [hs] at hW
    have h := moveEnemy_inField env s.frames s.WINDOW_WIDTH e hW
    unfold inField at h ⊢
    simp only [simOf, Sim.mk.injEq] at hm
    rw [hs, hm.1, ← moveEnemy_size env s.frames s.WINDOW_WIDTH e]
    exact h

theorem enemyPass_inField (env : Env) (p : World) :
    ∀ e' ∈ (enemyPass env p).enemies, e'.active = true → e'.size ≤ (p.WINDOW_WIDTH : ℚ) →
      inField p.WINDOW_WIDTH e' := by
  have h := forEnemies_mem (updateEnemy env) (fun s => s.WINDOW_WIDTH = p.WINDOW_WIDTH)
    (fun e' => e'.active = true → e'.size ≤ (p.WINDOW_WIDTH : ℚ) → inField p.WINDOW_WIDTH e')
    (fun s e hs => ((updateEnemy_punch env s e).WINDOW_WIDTH).trans hs)
    (fun s e hs => by
      have := updateEnemy_inField env s e
      rw [hs] at this
      exact this) p.enemies p rfl
  exact h

theorem prePunch_enemies (env : Env) (w : World) :
    (prePunch env w).enemies = (enemyPass env (spawnStep env (movePlayer (levelStep (decayEffects
      { w with frames := w.frames + 1 }))))).enemies.filter (fun e => e.active) :=
  rfl

theorem prePunch_inField (env : Env) (w : World) :
    ∀ e' ∈ (prePunch env w).enemies, e'.active = true → e'.size ≤ (w.WINDOW_WIDTH : ℚ) →
      inField w.WINDOW_WIDTH e' := by
  have hW : (spawnStep env (movePlayer (levelStep (decayEffects
      { w with frames := w.frames + 1 })))).WINDOW_WIDTH = w.WINDOW_WIDTH := by
    rw [(spawnStep_punch env _).WINDOW_WIDTH, (movePlayer_punch _).WINDOW_WIDTH,
      (levelStep_punch _).WINDOW_WIDTH, (decayEffects_punch _).WINDOW_WIDTH]
  intro e' he'
  rw [prePunch_enemies] at he'
  have h := enemyPass_inField env _ e' (List.mem_of_mem_filter he')
  rw [hW] at h
  exact h

/-- After `checkCollision` every enemy of the collection is an enemy of the
collection before the call or is not active. -/
theorem checkCollision_enemies_mem (env : Env) (x1 x2 y : ℚ) (w : World) :
    ∀ e' ∈ (checkCollision env x1 x2 y w).enemies, e' ∈ w.enemies ∨ e'.active = false := by
  unfold checkCollision
  simp only
  rw [killSweep_enemies, forEnemies_collide_fst, clapStep_enemies]
  intro e' he'
  rw [List.mem_map] at he'
  obtain ⟨e, he, rfl⟩ := he'
  split_ifs
  · right; rfl
  · left; exact he

theorem punchStep_enemies_mem (env : Env) (w : World) :
    ∀ e' ∈ (punchStep env w).enemies, e' ∈ w.enemies ∨ e'.active = false := by
  have hsame : ∀ v : World, v.enemies = w.enemies →
      ∀ e' ∈ v.enemies, e' ∈ w.enemies ∨ e'.active = false :=
    fun v hv e' he' => Or.inl (hv ▸ he')
  unfold punchStep
  split
  · exact hsame _ rfl
  · apply hsame
    unfold windupStep
    simp only
    split_ifs <;> rfl
  · have hm : (smashMove w).enemies = w.enemies := by
      unfold smashMove
      simp only
      split_ifs <;> rfl
    have hx : ∀ v : World, (smashExit v).enemies = v.enemies := by
      intro v
      unfold smashExit
      split_ifs <;> rfl
    unfold smashStep
    rw [hx]
    unfold smashCollide
    split_ifs
    · intro e' he'
      have := checkCollision_enemies_mem env _ _ _ _ e' he'
      rw [hm] at this
      exact this
    · exact hsame _ hm
  · apply hsame
    unfold holdStep
    simp only
    split_ifs <;> rfl
  · apply hsame
    unfold recoverStep
    simp only
    split_ifs <;> rfl

/-- C7 (amended): after every update tick that is not frozen, every enemy that
is still active and not wider than the field has its x in
`[size / 2, fieldWidth - size / 2]`; and for such an enemy, a tick in which its
x is clamped to a wall negates its drift velocity. -/
theorem enemies_stay_in_field (env : Env) (w : World) (h : nonFrozen w) :
    (∀ e ∈ (update env w).enemies, e.active = true → e.size ≤ (w.WINDOW_WIDTH : ℚ) →
        inField w.WINDOW_WIDTH e) ∧
      ∀ (s : World) (e : Enemy), e.active = true → e.size ≤ (s.WINDOW_WIDTH : ℚ) →
        wasClamped env s.frames s.WINDOW_WIDTH e → (updateEnemy env s e).1.vx = -e.vx := by
  constructor
  · rw [update_active env w h.1 h.2]
    unfold activeTick
    intro e he ha hW
    rcases punchStep_enemies_mem env _ e he with hm | hf
    · exact prePunch_inField env w e hm ha hW
    · rw [ha] at hf
      exact absurd hf (by decide)
  · intro s e ha hW hc
    have hm := updateEnemy_motion env s e ha
    simp only [simOf, Sim.mk.injEq] at hm
    rw [hm.2.2]
    exact moveEnemy_flip env s.frames s.WINDOW_WIDTH e hW hc

theorem enemies_stay_in_field_witness :
    nonFrozen worldBounce ∧
      (update envSample worldBounce).enemies.map (fun e => (e.x, e.vx, e.size, e.active))
        = [(20, 3, 40, true)] ∧
      (∀ e ∈ (update envSample worldBounce).enemies, e.active = true →
        e.size ≤ (worldBounce.WINDOW_WIDTH : ℚ) → inField worldBounce.WINDOW_WIDTH e) :=
  ⟨by decide, by decide!, (enemies_stay_in_field envSample worldBounce (by decide)).1⟩

/-- C7 as stated fails in a field narrower than the enemy: width 60, size 70,
drift 1.  In one tick the enemy is clamped to the left wall (x = 35, drift -1)
and then to the right wall (x = 25, drift 1): it ends at x = 25, below
`size / 2 = 35`, still active, and with the drift it had before the tick. -/
theorem enemy_outside_narrow_field :
    nonFrozen worldNarrowDrift ∧
      worldNarrowDrift.enemies.map (fun e => (e.x, e.vx, e.size, e.active)) = [(30, 1, 70, true)] ∧
      (update envSample worldNarrowDrift).enemies.map (fun e => (e.x, e.vx, e.size, e.active))
        = [(25, 1, 70, true)] := by
  decide!

/-! ### C17: the two wall-bounce forms -/

theorem predictStep_bounce (env : Env) (e : Enemy) (W f : ℤ) (s : Sim) :
    predictStep env e W f s
      = ⟨(predictBounce e.size W (s.simX + (s.simVx +
            env.sinF ((f : ℚ) * e.swaySpeed + e.swayOffset) * e.swayAmplitude)) s.simVx).1,
          s.simY + e.speed,
          (predictBounce e.size W (s.simX + (s.simVx +
            env.sinF ((f : ℚ) * e.swaySpeed + e.swayOffset) * e.swayAmplitude)) s.simVx).2⟩ := by
  unfold predictStep predictBounce
  simp only
  split_ifs <;> rfl

theorem moveEnemy_bounce (env : Env) (f W : ℤ) (e : Enemy) :
    ((moveEnemy env f W e).x, (moveEnemy env f W e).vx)
      = updateBounce e.size W (preClampX env f e) e.vx := by
  unfold moveEnemy updateBounce preClampX
  simp only
  split_ifs <;> rfl

theorem bounce_eq (size vx x : ℚ) (W : ℤ) (hW : size ≤ (W : ℚ)) :
    predictBounce size W x vx = updateBounce size W x vx := by
  unfold predictBounce updateBounce
  simp only
  split_ifs <;> first | rfl | (exfalso; linarith)

/-- C17: for an enemy of non-negative size in a field at least as wide as the
enemy, the wall-bounce of the prediction loop of `triggerPunch` (`if ... else
if ...`) and the wall-bounce of `update` (two independent `if`s) give the same
clamped x and the same drift velocity from every pre-clamp x and drift; so one
iteration of the prediction loop and the motion of one tick agree on x, y and
drift. -/
theorem wall_bounce_agree (env : Env) (e : Enemy) (W f : ℤ) (x vx : ℚ)
    (_hs : 0 ≤ e.size) (hW : e.size ≤ (W : ℚ)) :
    predictBounce e.size W x vx = updateBounce e.size W x vx ∧
      predictStep env e W f (simOf e) = simOf (moveEnemy env f W e) :=
  ⟨bounce_eq e.size vx x W hW, predictStep_simOf env e e W f ⟨rfl, rfl, rfl, rfl, rfl⟩ hW⟩

theorem wall_bounce_agree_witness :
    (0 : ℚ) ≤ (enemyStill 10 300 40 2).size ∧
      (enemyStill 10 300 40 2).size ≤ ((1024 : ℤ) : ℚ) ∧
      predictBounce 40 1024 7 (-3) = (20, 3) ∧
      predictBounce (enemyStill 10 300 40 2).size 1024 7 (-3)
        = updateBounce (enemyStill 10 300 40 2).size 1024 7 (-3) :=
  ⟨by decide!, by decide!, by decide!,
    (wall_bounce_agree envSample (enemyStill 10 300 40 2) 1024 0 7 (-3) (by decide!) (by decide!)).1⟩

/-! ### C16: the spawn interval -/

theorem prePunch_spawn (env : Env) (w : World) :
    prePunch env w = afterSpawn env (spawnStep env (preSpawn w)) :=
  rfl

theorem levelStep_score (w : World) : (levelStep w).score = w.score := by
  unfold levelStep
  simp only
  split_ifs <;> rfl

theorem levelStep_frames (w : World) : (levelStep w).frames = w.frames := by
  unfold levelStep
  simp only
  split_ifs <;> rfl

theorem movePlayer_score (w : World) : (movePlayer w).score = w.score := by
  unfold movePlayer
  simp only
  split_ifs <;> rfl

theorem preSpawn_score (w : World) : (preSpawn w).score = w.score := by
  unfold preSpawn
  rw [movePlayer_score, levelStep_score, decayEffects_score]

theorem preSpawn_frames (w : World) : (preSpawn w).frames = w.frames + 1 := by
  unfold preSpawn
  rw [(movePlayer_vital _).frames, levelStep_frames, (decayEffects_vital _).frames]

theorem spawnRate_eq (s : ℤ) (hs : 0 ≤ s) : spawnRate s = max 10 (60 - s / 100) := by
  unfold spawnRate
  rw [Int.tdiv_eq_ediv hs (by norm_num)]

theorem spawnRate_bounds (s : ℤ) (hs : 0 ≤ s) : 10 ≤ spawnRate s ∧ spawnRate s ≤ 60 := by
  rw [spawnRate_eq s hs]
  have : 0 ≤ s / 100 := Int.ediv_nonneg hs (by norm_num)
  constructor
  · exact le_max_left _ _
  · exact max_le (by norm_num) (by linarith)

theorem spawnRate_antitone (a b : ℤ) (ha : 0 ≤ a) (hab : a ≤ b) : spawnRate b ≤ spawnRate a := by
  rw [spawnRate_eq a ha, spawnRate_eq b (ha.trans hab)]
  have : a / 100 ≤ b / 100 := Int.ediv_le_ediv (by norm_num) hab
  exact max_le_max le_rfl (by linarith)

theorem spawnRate_step (a b : ℤ) (ha : 0 ≤ a) (hab : a + 100 ≤ b) (hf : 10 < spawnRate a) :
    spawnRate b < spawnRate a := by
  rw [spawnRate_eq a ha] at hf ⊢
  rw [spawnRate_eq b (by linarith)]
  have h1 : (a + 100) / 100 ≤ b / 100 := Int.ediv_le_ediv (by norm_num) hab
  have h2 : (a + 100) / 100 = a / 100 + 1 := by omega
  have h3 : 10 < 60 - a / 100 := by
    rcases max_cases 10 (60 - a / 100) with ⟨h, _⟩ | ⟨h, h'⟩
    · rw [h] at hf; exact absurd hf (lt_irrefl _)
    · exact h'
  rw [max_eq_right h3.le]
  exact max_lt h3 (by linarith)

theorem spawnEnemy_length (env : Env) (w : World) :
    (spawnEnemy env w).enemies.length = w.enemies.length + 1 := by
  unfold spawnEnemy
  simp

theorem spawnStep_iff (env : Env) (w : World) :
    (spawnRate w.score ∣ w.frames → spawnStep env w = spawnEnemy env w) ∧
      (¬ spawnRate w.score ∣ w.frames → spawnStep env w = w) := by
  unfold spawnStep
  constructor
  · intro h; rw [if_pos (Int.tmod_eq_zero_of_dvd h)]
  · intro h; rw [if_neg (fun h0 => h (Int.dvd_of_tmod_eq_zero h0))]

/-- C16 as stated fails: the spawn interval is not strictly decreasing in the
score.  With integer division the scores 0 and 50 both give the interval 60,
which is above the floor of 10. -/
theorem spawnRate_not_strictly_decreasing :
    (0 : ℤ) < 50 ∧ spawnRate 0 = 60 ∧ spawnRate 50 = 60 ∧ (10 : ℤ) < spawnRate 50 ∧
      ¬ (spawnRate 0 > spawnRate 50) := by
  decide

/-- C16 (amended): for every score `a ≥ 0` the spawn interval of `update` is
`max(10, 60 - a / 100)` with integer division and lies between 10 and 60; it
is non-increasing in the score (`a ≤ b` implies `interval(b) ≤ interval(a)`),
and strictly smaller after 100 more points as long as the floor of 10 has not
been reached.  In a tick that is not frozen the spawn statement runs on the
world `preSpawn w`, whose score is that of `w` and whose frame counter is the
incremented one; it calls `spawnEnemy`, which appends one enemy, exactly when
the interval divides the incremented frame counter, and otherwise changes
nothing. -/
theorem spawn_interval (env : Env) (w : World) (a b : ℤ) (ha : 0 ≤ a) (hab : a ≤ b)
    (hw : nonFrozen w) :
    spawnRate a = max 10 (60 - a / 100) ∧ 10 ≤ spawnRate a ∧ spawnRate a ≤ 60 ∧
      spawnRate b ≤ spawnRate a ∧
      (a + 100 ≤ b → 10 < spawnRate a → spawnRate b < spawnRate a) ∧
      update env w = punchStep env (afterSpawn env (spawnStep env (preSpawn w))) ∧
      (spawnRate w.score ∣ w.frames + 1 →
        spawnStep env (preSpawn w) = spawnEnemy env (preSpawn w) ∧
          (spawnEnemy env (preSpawn w)).enemies.length = (preSpawn w).enemies.length + 1) ∧
      (¬ spawnRate w.score ∣ w.frames + 1 → spawnStep env (preSpawn w) = preSpawn w) := by
  have hs := spawnStep_iff env (preSpawn w)
  rw [preSpawn_score, preSpawn_frames] at hs
  refine ⟨spawnRate_eq a ha, (spawnRate_bounds a ha).1, (spawnRate_bounds a ha).2,
    spawnRate_antitone a b ha hab, fun h1 h2 => spawnRate_step a b ha h1 h2, ?_, ?_, hs.2⟩
  · rw [update_active env w hw.1 hw.2]
    rfl
  · intro h
    exact ⟨hs.1 h, spawnEnemy_length env _⟩

theorem spawn_interval_witness :
    (0 : ℤ) ≤ 250 ∧ (250 : ℤ) ≤ 350 ∧ nonFrozen { worldStart with score := 250, frames := 57 } ∧
      spawnRate 250 = 58 ∧ spawnRate 350 = 57 ∧
      (spawnStep envSample (preSpawn { worldStart with score := 250, frames := 57 })).enemies.length
        = 1 ∧
      (spawnStep envSample (preSpawn { worldStart with score := 250, frames := 56 })).enemies.length
        = 0 ∧
      update envSample { worldStart with score := 250, frames := 57 }
        = punchStep envSample (afterSpawn envSample (spawnStep envSample
            (preSpawn { worldStart with score := 250, frames := 57 }))) :=
  ⟨by decide, by decide, by decide, by decide, by decide, by decide!, by decide!,
    (spawn_interval envSample { worldStart with score := 250, frames := 57 } 250 350
      (by decide) (by decide) (by decide)).2.2.2.2.2.1⟩

/-! ### C12: what a restart resets -/

/-- C12 as stated fails.  The session `worldLastHit` ends by a hit that leaves
shake 15 and flash 4/10; the pointer press that restarts it calls `initGame`
and enters Playing, and the new session starts with shake 15 and flash 4/10,
not 0.  From `worldStale` the restart also keeps hit-stop 4, zoom 16/10, punch
timer 3, the impact flag and the locked enemy, so the first four calls of
`update` of the new session are frozen. -/
theorem restart_keeps_transients :
    (update envSample worldLastHit).gameState = GameState.GAME_OVER ∧
      mouseButtonDown envSample (update envSample worldLastHit)
        = startPlaying (update envSample worldLastHit) ∧
      (startPlaying (update envSample worldLastHit)).shakeIntensity = 15 ∧
      (startPlaying (update envSample worldLastHit)).flashIntensity = 4 / 10 ∧
      (startPlaying worldStale).gameState = GameState.PLAYING ∧
      (startPlaying worldStale).hitStop = 4 ∧
      (startPlaying worldStale).shakeIntensity = 25 ∧
      (startPlaying worldStale).flashIntensity = 3 / 10 ∧
      (startPlaying worldStale).camZoom = 16 / 10 ∧
      (startPlaying worldStale).punchTimer = 3 ∧
      (startPlaying worldStale).hasSmashImpacted = true ∧
      (startPlaying worldStale).lockedEnemy = some 0 ∧
      (update envSample)^[4] (startPlaying worldStale)
        = { startPlaying worldStale with hitStop := 0 } := by
  decide!

/-- C12 (amended): a pointer press in Menu or GameOver runs `initGame` and
enters Playing; for every prior world state the result has score 0, health
100, level 1, frame counter 0, all five entity collections empty, punch state
Idle and the player at the bottom centre of the window, while the hit-stop
counter, shake, flash, camera zoom, punch timer, impact flag, locked target,
punch target, arms, pointer and window size keep the values they had. -/
theorem initGame_resets (env : Env) (w : World) :
    (w.gameState = GameState.MENU ∨ w.gameState = GameState.GAME_OVER →
        mouseButtonDown env w = startPlaying w) ∧
      ((startPlaying w).gameState = GameState.PLAYING ∧ (startPlaying w).score = 0 ∧
        (startPlaying w).health = 100 ∧ (startPlaying w).level = 1 ∧
        (startPlaying w).frames = 0 ∧ (startPlaying w).enemies = [] ∧
        (startPlaying w).particles = [] ∧ (startPlaying w).shockwaves = [] ∧
        (startPlaying w).explosions = [] ∧ (startPlaying w).floatingTexts = [] ∧
        (startPlaying w).punchState = PunchState.IDLE ∧
        (startPlaying w).player.x = (w.WINDOW_WIDTH : ℚ) / 2 ∧
        (startPlaying w).player.y = (w.WINDOW_HEIGHT : ℚ) - 100) ∧
      ((startPlaying w).hitStop = w.hitStop ∧
        (startPlaying w).shakeIntensity = w.shakeIntensity ∧
        (startPlaying w).flashIntensity = w.flashIntensity ∧
        (startPlaying w).camZoom = w.camZoom ∧ (startPlaying w).punchTimer = w.punchTimer ∧
        (startPlaying w).hasSmashImpacted = w.hasSmashImpacted ∧
        (startPlaying w).lockedEnemy = w.lockedEnemy ∧
        (startPlaying w).punchTarget = w.punchTarget ∧ (startPlaying w).leftArm = w.leftArm ∧
        (startPlaying w).rightArm = w.rightArm ∧ (startPlaying w).mouse = w.mouse ∧
        (startPlaying w).WINDOW_WIDTH = w.WINDOW_WIDTH ∧
        (startPlaying w).WINDOW_HEIGHT = w.WINDOW_HEIGHT) := by
  refine ⟨fun h => ?_, ?_, ?_⟩
  · unfold mouseButtonDown
    rw [if_pos h]
  · exact ⟨rfl, rfl, rfl, rfl, rfl, rfl, rfl, rfl, rfl, rfl, rfl, rfl, rfl⟩
  · exact ⟨rfl, rfl, rfl, rfl, rfl, rfl, rfl, rfl, rfl, rfl, rfl, rfl, rfl⟩

theorem initGame_resets_witness :
    (worldStale.gameState = GameState.MENU ∨ worldStale.gameState = GameState.GAME_OVER) ∧
      mouseButtonDown envSample worldStale = startPlaying worldStale ∧
      ((startPlaying worldStale).score, (startPlaying worldStale).health,
        (startPlaying worldStale).level, (startPlaying worldStale).frames,
        (startPlaying worldStale).enemies, (startPlaying worldStale).punchState)
        = (0, 100, 1, 0, [], PunchState.IDLE) :=
  ⟨by decide, (initGame_resets envSample worldStale).1 (by decide), by decide!⟩

/-! ### The block check of the enemy loop -/

theorem damageCheck_keeps (env : Env) (w : World) (e : Enemy) :
    gloveHit env (damageCheck env w e).2 (damageCheck env w e).1 = gloveHit env w e ∧
      (damageCheck env w e).2.punchState = w.punchState ∧
      (damageCheck env w e).2.score = w.score := by
  unfold damageCheck
  simp only
  split_ifs <;> exact ⟨rfl, rfl, rfl⟩

/-- The turn of an active enemy in the enemy loop of `update`: either the punch
state is Idle, a glove test succeeds on the moved enemy and the turn is a
block, or the turn leaves the score as it is. -/
theorem updateEnemy_block (env : Env) (w : World) (e : Enemy) (ha : e.active = true) :
    (w.punchState = PunchState.IDLE ∧
        gloveHit env w (moveEnemy env w.frames w.WINDOW_WIDTH e) = true ∧ blocked env w e) ∨
      (¬ (w.punchState = PunchState.IDLE ∧
          gloveHit env w (moveEnemy env w.frames w.WINDOW_WIDTH e) = true) ∧
        (updateEnemy env w e).2.score = w.score) := by
  have hk := damageCheck_keeps env w
    { moveEnemy env w.frames w.WINDOW_WIDTH e with
      rotation := (moveEnemy env w.frames w.WINDOW_WIDTH e).rotation
        + (moveEnemy env w.frames w.WINDOW_WIDTH e).rotSpeed }
  have hg : gloveHit env w { moveEnemy env w.frames w.WINDOW_WIDTH e with
      rotation := (moveEnemy env w.frames w.WINDOW_WIDTH e).rotation
        + (moveEnemy env w.frames w.WINDOW_WIDTH e).rotSpeed }
      = gloveHit env w (moveEnemy env w.frames w.WINDOW_WIDTH e) := rfl
  unfold blocked updateEnemy
  simp only [ha, Bool.not_true, Bool.false_eq_true, if_false]
  rw [hk.1, hk.2.1, hg]
  by_cases hi : w.punchState = PunchState.IDLE
  · by_cases hn : gloveHit env w (moveEnemy env w.frames w.WINDOW_WIDTH e) = true
    · left
      have : (decide (w.punchState = PunchState.IDLE) &&
          gloveHit env w (moveEnemy env w.frames w.WINDOW_WIDTH e)) = true := by
        rw [hn, decide_eq_true hi]; rfl
      rw [if_pos this]
      refine ⟨hi, hn, rfl, ?_, rfl⟩
      show (createParticles env _ _ _ _ _ (damageCheck env w _).2).score + 10 = w.score + 10
      rw [← hk.2.2]
      rfl
    · right
      have : ¬ (decide (w.punchState = PunchState.IDLE) &&
          gloveHit env w (moveEnemy env w.frames w.WINDOW_WIDTH e)) = true := by
        intro h
        rw [Bool.and_eq_true] at h
        exact hn h.2
      rw [if_neg this]
      exact ⟨fun h => hn h.2, hk.2.2⟩
  · right
    have : ¬ (decide (w.punchState = PunchState.IDLE) &&
        gloveHit env w (moveEnemy env w.frames w.WINDOW_WIDTH e)) = true := by
      intro h
      rw [Bool.and_eq_true, decide_eq_true_eq] at h
      exact hi h.1
    rw [if_neg this]
    exact ⟨fun h => hi h.1, hk.2.2⟩

theorem spawnStep_score (env : Env) (w : World) : (spawnStep env w).score = w.score := by
  unfold spawnStep spawnEnemy
  simp only
  split_ifs <;> rfl

theorem afterSpawn_score (env : Env) (w : World) :
    (afterSpawn env w).score = (enemyPass env w).score := by
  unfold afterSpawn textPass shockwavePass particlePass compactEnemies
  simp only

theorem enemyPass_score_busy (env : Env) (w : World) (hi : w.punchState ≠ PunchState.IDLE) :
    (enemyPass env w).score = w.score := by
  have h := forEnemies_state (updateEnemy env)
    (fun s => s.punchState = w.punchState ∧ s.score = w.score)
    (fun s e hs => by
      refine ⟨(updateEnemy_punch env s e).punchState.trans hs.1, ?_⟩
      cases ha : e.active
      · have : (updateEnemy env s e).2 = s := by
          unfold updateEnemy
          simp only [ha, Bool.not_false, if_true]
        rw [this]
        exact hs.2
      · rcases updateEnemy_block env s e ha with h | h
        · exact absurd (h.1.symm.trans hs.1).symm hi
        · exact h.2.trans hs.2)
    w.enemies w ⟨rfl, rfl⟩
  exact h.2

/-! ### C18: the gate of the SMASH branch and the clap condition -/

theorem levelScale_ge_one (level : ℤ) (h : 1 ≤ level) : 1 ≤ levelScale level := by
  unfold levelScale
  have : (0 : ℚ) ≤ ((level - 1 : ℤ) : ℚ) := by exact_mod_cast (sub_nonneg.mpr h)
  linarith

theorem gate_le_clap (level : ℤ) (g : ℚ) (hl : 1 ≤ level)
    (hg : g ≤ 36 * levelScale level * 2 + 15) : g ≤ 44 * levelScale level * 2 := by
  have := levelScale_ge_one level hl
  linarith

theorem smashGate_clap (w : World) (hl : 1 ≤ w.level) (hg : smashGate w = true) :
    |w.rightArm.x - w.leftArm.x| ≤ 44 * levelScale w.level * 2 := by
  unfold smashGate at hg
  exact gate_le_clap w.level _ hl (of_decide_eq_true hg)

theorem prePunch_level (env : Env) (w : World) :
    (prePunch env w).level = max w.level (min 4 (Int.tdiv w.score 1000 + 1)) := by
  rw [← activeTick_level env w]
  unfold activeTick
  rw [(punchStep_vital env _).level]

theorem clapTick_collisionTick (env : Env) (w : World) (h : clapTick env w = true) :
    collisionTick env w = true := by
  unfold clapTick at h
  unfold collisionTick
  rw [Bool.and_eq_true] at h
  exact h.1

theorem collisionTick_clapTick (env : Env) (w : World) (hl : 1 ≤ w.level)
    (h : collisionTick env w = true) : clapTick env w = true := by
  unfold clapTick
  rw [Bool.and_eq_true]
  refine ⟨h, ?_⟩
  unfold collisionTick at h
  rw [Bool.and_eq_true] at h
  have hl2 : 1 ≤ (smashMove (prePunch env w)).level := by
    rw [(smashMove_vital _).level, prePunch_level]
    exact le_max_of_le_left hl
  exact decide_eq_true (smashGate_clap _ hl2 h.2)

theorem clapSeen_collisionSeen (env : Env) :
    ∀ (evs : List Event) (w : World), clapSeen env w evs = true → collisionSeen env w evs = true := by
  intro evs
  induction evs with
  | nil => intro w h; exact h
  | cons ev evs ih =>
    intro w h
    simp only [clapSeen, collisionSeen, Bool.or_eq_true, Bool.and_eq_true] at h ⊢
    rcases h with h | h
    · exact Or.inl ⟨h.1, clapTick_collisionTick env w h.2⟩
    · exact Or.inr (ih _ h)

theorem triggerPunch_level (env : Env) (w : World) : (triggerPunch env w).level = w.level := by
  unfold triggerPunch
  simp only
  split
  · split <;> rfl
  · rfl

theorem update_level_ge (env : Env) (w : World) : w.level ≤ (update env w).level := by
  unfold update
  split_ifs
  · exact le_rfl
  · exact le_rfl
  · rw [activeTick_level]
    exact le_max_left _ _

theorem step_level_ge (env : Env) (w : World) (ev : Event) (h : 1 ≤ w.level) :
    1 ≤ (step env w ev).level := by
  cases ev with
  | tick =>
    simp only [step]
    rw [tick_eq_update]
    exact h.trans (update_level_ge env w)
  | mouseMotion x y => exact h
  | mouseButtonDown =>
    simp only [step]
    unfold mouseButtonDown
    split_ifs
    · exact le_rfl
    · rw [triggerPunch_level]; exact h
    · exact h
  | windowResized W H => exact h

theorem run_level_ge (env : Env) :
    ∀ (evs : List Event) (w : World), 1 ≤ w.level → 1 ≤ (run env w evs).level := by
  intro evs
  induction evs with
  | nil => intro w h; exact h
  | cons ev evs ih => intro w h; exact ih _ (step_level_ge env w ev h)

/-- C18: at every level from 1 to 4, with `scale = 1 + (level - 1) * 0.5`, an
arm gap `g` that passes the gate of the SMASH branch, `g <= 36 * scale * 2 +
15`, also satisfies the clap condition `g <= 44 * scale * 2` of
`checkCollision`; so at every call of `checkCollision` that comes from the
SMASH branch the clap condition holds.  Hence, in a punch cycle started by
`triggerPunch` and continued by ticks, pointer motions and resizes, the first
call of `update` that reaches `checkCollision` executes `triggerImpact`: the
impact count, unchanged until then, grows by one in that call. -/
theorem first_collision_fires (env : Env) (w : World) (g : ℚ) (evs : List Event)
    (hl : 1 ≤ w.level ∧ w.level ≤ 4) (hb : ∀ ev ∈ evs, ev ≠ Event.mouseButtonDown) :
    (g ≤ 36 * levelScale w.level * 2 + 15 → g ≤ 44 * levelScale w.level * 2) ∧
      (smashGate w = true → |w.rightArm.x - w.leftArm.x| ≤ 44 * levelScale w.level * 2) ∧
      (collisionSeen env (triggerPunch env w) evs = false →
        collisionTick env (run env (triggerPunch env w) evs) = true →
          (run env (triggerPunch env w) evs).impactCalls = w.impactCalls ∧
            (update env (run env (triggerPunch env w) evs)).impactCalls = w.impactCalls + 1) := by
  refine ⟨gate_le_clap w.level g hl.1, smashGate_clap w hl.1, ?_⟩
  intro hn hc
  have hr := run_impact env evs (triggerPunch env w) hb
  have hcs : clapSeen env (triggerPunch env w) evs = false := by
    cases h : clapSeen env (triggerPunch env w) evs
    · rfl
    · rw [clapSeen_collisionSeen env evs _ h] at hn
      exact absurd hn (by decide)
  rw [hcs, (triggerPunch_impact env w).1, (triggerPunch_impact env w).2] at hr
  have hlev : 1 ≤ (run env (triggerPunch env w) evs).level :=
    run_level_ge env evs _ (by rw [triggerPunch_level]; exact hl.1)
  have hu := (update_impact env (run env (triggerPunch env w) evs)).1
  rw [collisionTick_clapTick env _ hlev hc, hr.2, hr.1] at hu
  constructor
  · simpa using hr.1
  · simpa using hu

theorem first_collision_fires_witness :
    (1 ≤ worldStart.level ∧ worldStart.level ≤ 4) ∧
      (∀ ev ∈ List.replicate 12 Event.tick, ev ≠ Event.mouseButtonDown) ∧
      collisionSeen envSample (triggerPunch envSample worldStart) (List.replicate 12 Event.tick)
        = false ∧
      collisionTick envSample (run envSample (triggerPunch envSample worldStart)
        (List.replicate 12 Event.tick)) = true ∧
      (update envSample (run envSample (triggerPunch envSample worldStart)
        (List.replicate 12 Event.tick))).impactCalls = worldStart.impactCalls + 1 :=
  ⟨by decide, by decide, by decide!, by decide!,
    ((first_collision_fires envSample worldStart 0 (List.replicate 12 Event.tick) (by decide)
      (by decide)).2.2 (by decide!) (by decide!)).2⟩

/-! ### C11: enemies that are not active -/

theorem punchStep_enemies_cases (env : Env) (w : World) :
    (punchStep env w).enemies = w.enemies ∨
      (w.punchState = PunchState.SMASH ∧ ∃ cx y s, (punchStep env w).enemies
        = w.enemies.map
            (fun e => if e.active && inKillBox cx y s e then { e with active := false } else e)) := by
  unfold punchStep
  split
  · exact Or.inl rfl
  · left
    unfold windupStep
    simp only
    split_ifs <;> rfl
  next h =>
    have hm : (smashMove w).enemies = w.enemies := by
      unfold smashMove
      simp only
      split_ifs <;> rfl
    have hx : ∀ v : World, (smashExit v).enemies = v.enemies := by
      intro v
      unfold smashExit
      split_ifs <;> rfl
    unfold smashStep
    rw [hx]
    unfold smashCollide
    split_ifs
    · right
      have hk : (checkCollision env (smashMove w).leftArm.x (smashMove w).rightArm.x
          (smashMove w).punchTarget.y (smashMove w)).enemies
          = w.enemies.map (fun e =>
              if e.active && inKillBox (((smashMove w).leftArm.x + (smashMove w).rightArm.x) / 2)
                  (smashMove w).punchTarget.y (levelScale (smashMove w).level) e
              then { e with active := false } else e) := by
        unfold checkCollision
        simp only
        rw [killSweep_enemies, forEnemies_collide_fst, clapStep_enemies, hm]
      exact ⟨h, _, _, _, hk⟩
    · exact Or.inl hm
  · left
    unfold holdStep
    simp only
    split_ifs <;> rfl
  · left
    unfold recoverStep
    simp only
    split_ifs <;> rfl

theorem prePunch_all_active (env : Env) (w : World) :
    ∀ e ∈ (prePunch env w).enemies, e.active = true := by
  intro e he
  rw [prePunch_enemies] at he
  exact (List.mem_filter.mp he).2

/-- C11 as stated fails for a punch kill.  In `worldMidSmash` the tick is not
frozen; the enemy is moved to (400, 226) and survives the compaction, then the
SMASH branch calls `checkCollision`, which deactivates it.  At the end of the
tick it is still in the collection with `active = false`; it stays there
during the four frozen calls of the hit-stop and is removed by the compaction
of the next tick that is not frozen. -/
theorem punch_kill_stays_in_collection :
    nonFrozen worldMidSmash ∧
      worldMidSmash.enemies.map (fun e => (e.x, e.y, e.active)) = [(400, 224, true)] ∧
      (update envSample worldMidSmash).enemies.map (fun e => (e.x, e.y, e.active))
        = [(400, 226, false)] ∧
      ((update envSample)^[5] worldMidSmash).enemies.map (fun e => (e.x, e.y, e.active))
        = [(400, 226, false)] ∧
      nonFrozen ((update envSample)^[5] worldMidSmash) ∧
      ((update envSample)^[6] worldMidSmash).enemies = [] := by
  decide!

/-- C11 (amended): in every tick that is not frozen, the compaction that follows
the enemy loop removes every enemy with `active = false`, so every enemy
deactivated in the tick by reaching the floor, by a block or by damaging the
player is removed in that same tick, and so is every enemy that was not active
when the tick began.  The punch state machine runs after the compaction: an
enemy that is in the collection with `active = false` at the end of the tick
was active after the compaction and was deactivated by `checkCollision` in the
SMASH branch of that tick; when the punch state is not Smash every enemy in
the collection at the end of the tick is active.  The number of enemies after
the tick is the number after the compaction. -/
theorem inactive_only_by_punch (env : Env) (w : World) (h : nonFrozen w) :
    (prePunch env w).enemies
        = (enemyPass env (spawnStep env (preSpawn w))).enemies.filter (fun e => e.active) ∧
      update env w = punchStep env (prePunch env w) ∧
      (∀ e ∈ (prePunch env w).enemies, e.active = true) ∧
      (∀ e ∈ (update env w).enemies, e.active = false →
        w.punchState = PunchState.SMASH ∧
          ∃ e0 ∈ (prePunch env w).enemies, e0.active = true ∧ e = { e0 with active := false }) ∧
      (w.punchState ≠ PunchState.SMASH → ∀ e ∈ (update env w).enemies, e.active = true) ∧
      (update env w).enemies.length = (prePunch env w).enemies.length := by
  have hu : update env w = punchStep env (prePunch env w) := update_active env w h.1 h.2
  have hps : (prePunch env w).punchState = w.punchState := (prePunch_punch env w).punchState
  have key : ∀ e ∈ (update env w).enemies, e.active = false →
      w.punchState = PunchState.SMASH ∧
        ∃ e0 ∈ (prePunch env w).enemies, e0.active = true ∧ e = { e0 with active := false } := by
    intro e he ha
    rw [hu] at he
    rcases punchStep_enemies_cases env (prePunch env w) with hc | ⟨hs, cx, y, s, hc⟩
    · rw [hc] at he
      rw [prePunch_all_active env w e he] at ha
      exact absurd ha (by decide)
    · rw [hc, List.mem_map] at he
      obtain ⟨e0, he0, rfl⟩ := he
      have ha0 := prePunch_all_active env w e0 he0
      refine ⟨hps ▸ hs, e0, he0, ha0, ?_⟩
      split_ifs at ha ⊢
      · rfl
      · rw [ha0] at ha
        exact absurd ha (by decide)
  refine ⟨prePunch_enemies env w, hu, prePunch_all_active env w, key, ?_, ?_⟩
  · intro hs e he
    cases ha : e.active
    · exact absurd (key e he ha).1 hs
    · rfl
  · rw [hu]
    rcases punchStep_enemies_cases env (prePunch env w) with hc | ⟨_, cx, y, s, hc⟩
    · rw [hc]
    · rw [hc, List.length_map]

theorem inactive_only_by_punch_witness :
    nonFrozen worldMidSmash ∧ worldMidSmash.punchState = PunchState.SMASH ∧
      (prePunch envSample worldMidSmash).enemies.map (fun e => (e.x, e.y, e.active))
        = [(400, 226, true)] ∧
      (∀ e ∈ (update envSample worldMidSmash).enemies, e.active = false →
        worldMidSmash.punchState = PunchState.SMASH ∧
          ∃ e0 ∈ (prePunch envSample worldMidSmash).enemies,
            e0.active = true ∧ e = { e0 with active := false }) :=
  ⟨by decide!, by decide!, by decide!,
    (inactive_only_by_punch envSample worldMidSmash (by decide!)).2.2.2.1⟩

/-! ### C14: the score -/

theorem inKillBox_scale_pos (cx y s : ℚ) (e : Enemy) (h : inKillBox cx y s e = true) : 0 < s := by
  unfold inKillBox at h
  have h' := of_decide_eq_true h
  linarith [h'.1, h'.2.1]

theorem truncToInt_nonneg (q : ℚ) (h : 0 ≤ q) : 0 ≤ truncToInt q := by
  rw [truncToInt_of_nonneg q h]
  exact Int.floor_nonneg.mpr h

theorem killPoints_nonneg (env : Env) (size scale : ℚ) (h1 : 0 ≤ size) (h2 : 0 ≤ scale) :
    0 ≤ killPoints env size scale := by
  unfold killPoints
  exact truncToInt_nonneg _ (env.roundF_nonneg _
    (mul_nonneg (env.roundF_nonneg _ (mul_nonneg h1 h2)) (by norm_num)))

theorem killSweep_score_ge (env : Env) (cx y s : ℚ) (w : World)
    (hs : ∀ e ∈ w.enemies, 0 ≤ e.size) : w.score ≤ (killSweep env cx y s w).score := by
  rw [killSweep_score, forEnemies_collide_score]
  have : 0 ≤ ((w.enemies.filter (fun e => e.active && inKillBox cx y s e)).map
      (fun e => killPoints env e.size s)).sum := by
    apply List.sum_nonneg
    intro p hp
    rw [List.mem_map] at hp
    obtain ⟨e, he, rfl⟩ := hp
    rw [List.mem_filter, Bool.and_eq_true] at he
    have h1 := hs e he.1
    have h2 := inKillBox_scale_pos cx y s e he.2.2
    exact killPoints_nonneg env _ _ h1 h2.le
  show w.score ≤ w.score + _
  linarith

theorem checkCollision_score_ge (env : Env) (x1 x2 y : ℚ) (w : World)
    (hs : ∀ e ∈ w.enemies, 0 ≤ e.size) : w.score ≤ (checkCollision env x1 x2 y w).score := by
  unfold checkCollision
  simp only
  have h := killSweep_score_ge env ((x1 + x2) / 2) y (levelScale w.level)
    (clapStep env ((x1 + x2) / 2) y (levelScale w.level) |x2 - x1| (44 * levelScale w.level) w)
    (by rw [clapStep_enemies]; exact hs)
  rw [clapStep_score] at h
  exact h

theorem punchStep_score_ge (env : Env) (w : World) (hs : ∀ e ∈ w.enemies, 0 ≤ e.size) :
    w.score ≤ (punchStep env w).score := by
  unfold punchStep
  split
  · exact le_rfl
  · unfold windupStep
    simp only
    split_ifs <;> exact le_rfl
  · have hm : (smashMove w).enemies = w.enemies ∧ (smashMove w).score = w.score := by
      unfold smashMove
      simp only
      split_ifs <;> exact ⟨rfl, rfl⟩
    have hx : ∀ v : World, (smashExit v).score = v.score := by
      intro v
      unfold smashExit
      split_ifs <;> rfl
    unfold smashStep
    rw [hx]
    unfold smashCollide
    split_ifs
    · have := checkCollision_score_ge env (smashMove w).leftArm.x (smashMove w).rightArm.x
        (smashMove w).punchTarget.y (smashMove w) (by rw [hm.1]; exact hs)
      rw [hm.2] at this
      exact this
    · exact hm.2.ge
  · unfold holdStep
    simp only
    split_ifs <;> exact le_rfl
  · unfold recoverStep
    simp only
    split_ifs <;> exact le_rfl

theorem punchStep_sizes (env : Env) (w : World) (hs : ∀ e ∈ w.enemies, 0 ≤ e.size) :
    ∀ e ∈ (punchStep env w).enemies, 0 ≤ e.size := by
  intro e he
  rcases punchStep_enemies_cases env w with hc | ⟨_, cx, y, s, hc⟩
  · rw [hc] at he
    exact hs e he
  · rw [hc, List.mem_map] at he
    obtain ⟨e0, he0, rfl⟩ := he
    split_ifs
    · exact hs e0 he0
    · exact hs e0 he0

theorem updateEnemy_score_ge (env : Env) (s : World) (e : Enemy) :
    s.score ≤ (updateEnemy env s e).2.score := by
  cases ha : e.active
  · have : (updateEnemy env s e).2 = s := by
      unfold updateEnemy
      simp only [ha, Bool.not_false, if_true]
    rw [this]
  · rcases updateEnemy_block env s e ha with h | h
    · rw [h.2.2.2.1]
      linarith
    · exact h.2.ge

theorem enemyPass_score_ge (env : Env) (w : World) : w.score ≤ (enemyPass env w).score :=
  forEnemies_state (updateEnemy env) (fun s => w.score ≤ s.score)
    (fun s e hs => hs.trans (updateEnemy_score_ge env s e)) w.enemies w le_rfl

theorem forEnemies_preserves {σ : Type} (body : σ → Enemy → Enemy × σ) (Q : Enemy → Prop)
    (hQ : ∀ s e, Q e → Q (body s e).1) :
    ∀ (es : List Enemy) (s : σ), (∀ e ∈ es, Q e) → ∀ e' ∈ (forEnemies body es s).1, Q e' := by
  intro es
  induction es with
  | nil => intro s _ e' he'; simp [forEnemies] at he'
  | cons e es ih =>
    intro s hs e' he'
    simp only [forEnemies, List.mem_cons] at he'
    rcases he' with rfl | he'
    · exact hQ s e (hs e (List.mem_cons_self _ _))
    · exact ih _ (fun x hx => hs x (List.mem_cons_of_mem _ hx)) e' he'

theorem enemyPass_sizes (env : Env) (w : World) (hs : ∀ e ∈ w.enemies, 0 ≤ e.size) :
    ∀ e ∈ (enemyPass env w).enemies, 0 ≤ e.size :=
  forEnemies_preserves (updateEnemy env) (fun e => 0 ≤ e.size)
    (fun s e he => by
      rcases updateEnemy_fst env s e with h | h
      · rw [h.2]; exact he
      · rw [h.2.1]; exact he)
    w.enemies w hs

theorem randomFloat_ge (env : Env) (k : ℕ) (lo hi : ℚ) (h : lo ≤ hi) :
    lo ≤ randomFloat env k lo hi := by
  unfold randomFloat
  have : (0 : ℚ) ≤ (env.rand k : ℚ) / ((env.RAND_MAX : ℚ) / (hi - lo)) :=
    div_nonneg (Nat.cast_nonneg _) (div_nonneg (Nat.cast_nonneg _) (sub_nonneg.mpr h))
  linarith

theorem spawnStep_sizes (env : Env) (w : World) (hs : ∀ e ∈ w.enemies, 0 ≤ e.size) :
    ∀ e ∈ (spawnStep env w).enemies, 0 ≤ e.size := by
  unfold spawnStep
  split_ifs
  · unfold spawnEnemy
    simp only
    intro e he
    rw [List.mem_append, List.mem_singleton] at he
    rcases he with he | rfl
    · exact hs e he
    · have := randomFloat_ge env w.rngCalls 30 70 (by norm_num)
      show (0 : ℚ) ≤ randomFloat env w.rngCalls 30 70
      linarith
  · exact hs

theorem decayEffects_enemies (w : World) : (decayEffects w).enemies = w.enemies := by
  unfold decayEffects
  simp only
  split_ifs <;> rfl

theorem levelStep_enemies (w : World) : (levelStep w).enemies = w.enemies := by
  unfold levelStep
  simp only
  split_ifs <;> rfl

theorem movePlayer_enemies (w : World) : (movePlayer w).enemies = w.enemies := by
  unfold movePlayer
  simp only
  split_ifs <;> rfl

theorem preSpawn_enemies (w : World) : (preSpawn w).enemies = w.enemies := by
  unfold preSpawn
  rw [movePlayer_enemies, levelStep_enemies, decayEffects_enemies]

theorem prePunch_score_ge (env : Env) (w : World) : w.score ≤ (prePunch env w).score := by
  rw [prePunch_spawn, afterSpawn_score]
  have := enemyPass_score_ge env (spawnStep env (preSpawn w))
  rw [spawnStep_score, preSpawn_score] at this
  exact this

theorem prePunch_sizes (env : Env) (w : World) (hs : ∀ e ∈ w.enemies, 0 ≤ e.size) :
    ∀ e ∈ (prePunch env w).enemies, 0 ≤ e.size := by
  intro e he
  rw [prePunch_enemies] at he
  exact enemyPass_sizes env _
    (spawnStep_sizes env (preSpawn w) (by rw [preSpawn_enemies]; exact hs)) e
    (List.mem_filter.mp he).1

theorem update_score_ge (env : Env) (w : World) (hs : ∀ e ∈ w.enemies, 0 ≤ e.size) :
    w.score ≤ (update env w).score ∧ ∀ e ∈ (update env w).enemies, 0 ≤ e.size := by
  unfold update
  split_ifs
  · exact ⟨le_rfl, hs⟩
  · exact ⟨le_rfl, hs⟩
  · unfold activeTick
    have h1 := prePunch_sizes env w hs
    exact ⟨(prePunch_score_ge env w).trans (punchStep_score_ge env _ h1),
      punchStep_sizes env _ h1⟩

theorem triggerPunch_score (env : Env) (w : World) :
    (triggerPunch env w).score = w.score ∧ (triggerPunch env w).enemies = w.enemies := by
  unfold triggerPunch
  simp only
  split
  · split <;> exact ⟨rfl, rfl⟩
  · exact ⟨rfl, rfl⟩

theorem update_scoreInv (env : Env) (w : World) (h : ScoreInv w) : ScoreInv (update env w) :=
  ⟨h.1.trans (update_score_ge env w h.2).1, (update_score_ge env w h.2).2⟩

theorem triggerPunch_scoreInv (env : Env) (w : World) (h : ScoreInv w) :
    ScoreInv (triggerPunch env w) := by
  unfold ScoreInv
  rw [(triggerPunch_score env w).1, (triggerPunch_score env w).2]
  exact h

theorem startPlaying_scoreInv (w : World) : ScoreInv (startPlaying w) :=
  ⟨le_rfl, fun _ he => absurd he (List.not_mem_nil _)⟩

theorem step_scoreInv (env : Env) (w : World) (ev : Event) (h : ScoreInv w) :
    ScoreInv (step env w ev) := by
  cases ev with
  | tick =>
    simp only [step]
    rw [tick_eq_update]
    exact update_scoreInv env w h
  | mouseMotion x y => exact h
  | mouseButtonDown =>
    simp only [step]
    unfold mouseButtonDown
    split_ifs
    · exact startPlaying_scoreInv w
    · exact triggerPunch_scoreInv env w h
    · exact h
  | windowResized W H => exact h

theorem reachable_scoreInv (env : Env) (w : World) (h : Reachable env w) : ScoreInv w := by
  induction h with
  | start w0 => exact startPlaying_scoreInv w0
  | event w ev _ ih => exact step_scoreInv env w ev ih
  | update w _ ih => exact update_scoreInv env w ih
  | punch w _ ih => exact triggerPunch_scoreInv env w ih

/-- C14: in every state in which no enemy has a negative size, a call of
`update` and a call of `triggerPunch` each leave the score greater than or
equal to what it was (the integers are unbounded, so the arithmetic is exact);
and in every state reachable from `initGame` by ticks, punch triggers and
input events the score is non-negative. -/
theorem score_monotone (env : Env) (w : World) (hs : ∀ e ∈ w.enemies, 0 ≤ e.size) :
    w.score ≤ (update env w).score ∧ w.score ≤ (triggerPunch env w).score ∧
      ∀ v, Reachable env v → 0 ≤ v.score :=
  ⟨(update_score_ge env w hs).1, (triggerPunch_score env w).1.ge,
    fun v hv => (reachable_scoreInv env v hv).1⟩

theorem score_monotone_witness :
    (∀ e ∈ worldMidSmash.enemies, 0 ≤ e.size) ∧ worldMidSmash.score = 1000 ∧
      (update envSample worldMidSmash).score = 1120 ∧
      worldMidSmash.score ≤ (update envSample worldMidSmash).score :=
  ⟨by decide!, by decide!, by decide!, (score_monotone envSample worldMidSmash (by decide!)).1⟩

/-! ### C15: the flight frames -/

theorem truncToInt_intCast (n : ℤ) : truncToInt (n : ℚ) = n := by
  unfold truncToInt
  split_ifs
  · exact Int.floor_intCast n
  · exact Int.ceil_intCast n

/-- Bounds for the natural logarithm from those of the exponential at a
natural number. -/
theorem log_bounds (x : ℝ) (n : ℕ) (hx : 0 < x) :
    (n : ℝ) + 1 - Real.exp n / x ≤ Real.log x ∧ Real.log x ≤ (n : ℝ) + x / Real.exp n - 1 := by
  have he : 0 < Real.exp (n : ℝ) := Real.exp_pos _
  have hq : 0 < x / Real.exp n := div_pos hx he
  have h1 : Real.log (x / Real.exp n) = Real.log x - n := by
    rw [Real.log_div hx.ne.symm he.ne.symm, Real.log_exp]
  have h2 := Real.log_le_sub_one_of_pos hq
  have h3 := Real.one_sub_inv_le_log_of_pos hq
  rw [inv_div] at h3
  rw [h1] at h2 h3
  constructor <;> linarith

theorem exp_three_bounds : (20 : ℝ) < Real.exp (3 : ℕ) ∧ Real.exp (3 : ℕ) < 201 / 10 := by
  have h : Real.exp ((3 : ℕ) : ℝ) = Real.exp 1 ^ 3 := by
    rw [← Real.exp_nat_mul, mul_one]
  rw [h]
  have h1 := Real.exp_one_gt_d9
  have h2 := Real.exp_one_lt_d9
  have h0 : (0 : ℝ) < Real.exp 1 := Real.exp_pos 1
  constructor
  · calc (20 : ℝ) < 2.7182818283 ^ 3 := by norm_num
      _ < Real.exp 1 ^ 3 := by gcongr
  · calc Real.exp 1 ^ 3 < 2.7182818286 ^ 3 := by gcongr
      _ < 201 / 10 := by norm_num

theorem log_five_percent : -301 / 100 ≤ Real.log (5 / 100) ∧ Real.log (5 / 100) ≤ -299 / 100 := by
  have h20 : Real.log (5 / 100) = -Real.log 20 := by
    rw [← Real.log_inv]
    norm_num
  have hb := log_bounds 20 3 (by norm_num)
  have he := exp_three_bounds
  have h1 : Real.exp (3 : ℕ) / 20 ≤ 201 / 200 := by
    rw [div_le_iff₀ (by norm_num)]
    linarith [he.2]
  have h2 : (20 : ℝ) / Real.exp (3 : ℕ) ≤ 1 := by
    rw [div_le_one (Real.exp_pos _)]
    exact he.1.le
  rw [h20]
  push_cast at hb
  constructor <;> linarith [hb.1, hb.2]

theorem log_two_fifths : -93 / 100 ≤ Real.log (1 - 6 / 10) ∧ Real.log (1 - 6 / 10) ≤ -90 / 100 := by
  have h25 : Real.log (1 - 6 / 10) = -Real.log (5 / 2) := by
    rw [← Real.log_inv]
    norm_num
  have hb := log_bounds (5 / 2) 1 (by norm_num)
  have h1 := Real.exp_one_gt_d9
  have h2 := Real.exp_one_lt_d9
  have h0 : (0 : ℝ) < Real.exp 1 := Real.exp_pos 1
  simp only [Nat.cast_one] at hb
  have h3 : Real.exp 1 / (5 / 2) ≤ 109 / 100 := by
    rw [div_le_iff₀ (by norm_num)]
    linarith
  have h4 : (5 / 2 : ℝ) / Real.exp 1 ≤ 92 / 100 := by
    rw [div_le_iff₀ h0]
    linarith
  rw [h25]
  constructor <;> linarith [hb.1, hb.2]

theorem envSample_logAccurate : LogAccurate envSample := by
  have h1 : envSample.logF (5 / 100) = -29957 / 10000 := by decide!
  have h2 : envSample.logF (1 - SMASH_SPEED) = -9163 / 10000 := by decide!
  have l1 := log_five_percent
  have l2 := log_two_fifths
  unfold LogAccurate
  rw [h1, h2, abs_le, abs_le]
  push_cast
  refine ⟨⟨?_, ?_⟩, ⟨?_, ?_⟩⟩ <;> linarith [l1.1, l1.2, l2.1, l2.2]

/-- C15: when `std::log` is within 1/50 of the natural logarithm at 0.05 and at
`1 - 0.6`, the call `calculateFlightFrames(SMASH_SPEED)` with the default
threshold 0.05, which computes `ceil(log(threshold) / log(1 - speed))`,
returns exactly 4, and the prediction horizon `WINDUP_FRAMES + flightFrames`
of `triggerPunch` is exactly 12; the exact value `ceil(ln 0.05 / ln 0.4)` is 4
as well. -/
theorem flightFrames_eq_four (env : Env) (h : LogAccurate env) :
    calculateFlightFrames env SMASH_SPEED (5 / 100) = 4 ∧ totalPredictionFrames env = 12 ∧
      ⌈Real.log (5 / 100) / Real.log (1 - 6 / 10)⌉ = 4 := by
  have l1 := log_five_percent
  have l2 := log_two_fifths
  obtain ⟨ha, hb⟩ := h
  rw [abs_le] at ha hb
  have hb0 : ((env.logF (1 - SMASH_SPEED) : ℚ) : ℝ) < 0 := by linarith [hb.2, l2.2]
  have h3 : ((env.logF (5 / 100) : ℚ) : ℝ) < 3 * ((env.logF (1 - SMASH_SPEED) : ℚ) : ℝ) := by
    linarith [ha.2, hb.1, l1.2, l2.1]
  have h4 : 4 * ((env.logF (1 - SMASH_SPEED) : ℚ) : ℝ) ≤ ((env.logF (5 / 100) : ℚ) : ℝ) := by
    linarith [ha.1, hb.2, l1.1, l2.2]
  have hb0' : env.logF (1 - SMASH_SPEED) < 0 := by exact_mod_cast hb0
  have h3' : env.logF (5 / 100) < 3 * env.logF (1 - SMASH_SPEED) := by exact_mod_cast h3
  have h4' : 4 * env.logF (1 - SMASH_SPEED) ≤ env.logF (5 / 100) := by exact_mod_cast h4
  have hc : ⌈env.logF (5 / 100) / env.logF (1 - SMASH_SPEED)⌉ = 4 := by
    rw [Int.ceil_eq_iff]
    constructor
    · rw [lt_div_iff_of_neg hb0']
      push_cast
      linarith
    · rw [div_le_iff_of_neg hb0']
      push_cast
      linarith
  have hf : calculateFlightFrames env SMASH_SPEED (5 / 100) = 4 := by
    unfold calculateFlightFrames
    rw [hc]
    exact truncToInt_intCast 4
  refine ⟨hf, ?_, ?_⟩
  · unfold totalPredictionFrames WINDUP_FRAMES
    rw [hf]
    rfl
  · have hl0 : Real.log (1 - 6 / 10) < 0 := by linarith [l2.2]
    rw [Int.ceil_eq_iff]
    constructor
    · rw [lt_div_iff_of_neg hl0]
      push_cast
      linarith [l1.2, l2.1]
    · rw [div_le_iff_of_neg hl0]
      push_cast
      linarith [l1.1, l2.2]

theorem flightFrames_eq_four_witness :
    LogAccurate envSample ∧ calculateFlightFrames envSample SMASH_SPEED (5 / 100) = 4 ∧
      totalPredictionFrames envSample = 12 :=
  ⟨envSample_logAccurate, (flightFrames_eq_four envSample envSample_logAccurate).1,
    (flightFrames_eq_four envSample envSample_logAccurate).2.1⟩

/-! ### C1: the predicted target and the enemy after 12 ticks -/

/-- C1 fails on the code in a field narrower than the locked enemy.  In the
session `worldSqueezed` the window is 60 wide and the enemy, of size 70, is at
x = 25 with drift 2.  The pointer press calls `triggerPunch`, which locks the
enemy and predicts the target (35, -44): the prediction loop clamps with
`if ... else if`, at one wall per iteration.  The next 12 calls of `update` are
all full ticks and `update` clamps with two independent `if`s, at both walls in
one tick: the enemy, still active, is at (25, -44).  In a field wider than the
enemy the two agree: in `worldSway` the enemy sways, drifts into the left wall
and bounces on the third tick, and the target is its position after exactly 12
calls of `update`, not after 11 or 13. -/
theorem punchTarget_misses_in_narrow_field :
    (worldSqueezed.WINDOW_WIDTH = 60 ∧
      worldSqueezed.enemies.map (fun e => (e.x, e.y, e.size, e.vx, e.active))
        = [(25, -68, 70, 2, true)] ∧
      step envLarge worldSqueezed Event.mouseButtonDown = triggerPunch envLarge worldSqueezed ∧
      (triggerPunch envLarge worldSqueezed).lockedEnemy = some 0 ∧
      (triggerPunch envLarge worldSqueezed).punchTarget = ⟨35, -44⟩ ∧
      activeTicks envLarge 12 (triggerPunch envLarge worldSqueezed) = 12 ∧
      ((update envLarge)^[12] (triggerPunch envLarge worldSqueezed)).enemies.map
          (fun e => (e.x, e.y, e.active)) = [(25, -44, true)]) ∧
    ((triggerPunch envSway worldSway).lockedEnemy = some 0 ∧
      activeTicks envSway 12 (triggerPunch envSway worldSway) = 12 ∧
      ((update envSway)^[3] (triggerPunch envSway worldSway)).enemies.map
          (fun e => (e.x, e.vx)) = [(20, 6)] ∧
      ((update envSway)^[12] (triggerPunch envSway worldSway)).enemies.map
          (fun e => (enemyPos e, e.active))
        = [((triggerPunch envSway worldSway).punchTarget, true)] ∧
      ((update envSway)^[11] (triggerPunch envSway worldSway)).enemies.map enemyPos
        ≠ [(triggerPunch envSway worldSway).punchTarget] ∧
      ((update envSway)^[13] (triggerPunch envSway worldSway)).enemies.map enemyPos
        ≠ [(triggerPunch envSway worldSway).punchTarget]) := by
  decide!

/-! ### C3: lock-on -/

theorem lockStep_eq (env : Env) (m : Vec2) (c : ℚ) (l : Option ℕ) (i : ℕ) (e : Enemy) :
    lockStep env m (c, l) i e
      = if lockable env m e = true ∧ dist env m (enemyPos e) < c then (dist env m (enemyPos e), some i)
        else (c, l) := by
  unfold lockStep lockable enemyPos
  cases e.active <;> simp

/-- The lock-on loop started with `closestDist = c`: either nothing below `c`
is lockable and the accumulator is unchanged, or the loop ends on the first
enemy among the lockable ones with the least value of `dist`. -/
theorem lockLoop_spec (env : Env) (m : Vec2) :
    ∀ (es : List Enemy) (i : ℕ) (c : ℚ) (l : Option ℕ),
      (lockLoop env m es i (c, l) = (c, l) ∧
          ∀ e ∈ es, lockable env m e = true → c ≤ dist env m (enemyPos e)) ∨
        ∃ j e, es[j]? = some e ∧
          lockLoop env m es i (c, l) = (dist env m (enemyPos e), some (i + j)) ∧
          lockable env m e = true ∧ dist env m (enemyPos e) < c ∧
          ∀ j' e', es[j']? = some e' → lockable env m e' = true →
            dist env m (enemyPos e) ≤ dist env m (enemyPos e') ∧
              (j' < j → dist env m (enemyPos e) < dist env m (enemyPos e')) := by
  intro es
  induction es with
  | nil => intro i c l; left; exact ⟨rfl, by simp⟩
  | cons e0 es ih =>
    intro i c l
    simp only [lockLoop, lockStep_eq]
    by_cases h0 : lockable env m e0 = true ∧ dist env m (enemyPos e0) < c
    · rw [if_pos h0]
      right
      rcases ih (i + 1) (dist env m (enemyPos e0)) (some i) with
        ⟨hr, hall⟩ | ⟨j, e, hj, hr, hl, hlt, hall⟩
      · refine ⟨0, e0, by simp, by rw [hr]; rfl, h0.1, h0.2, ?_⟩
        intro j' e' hj' hl'
        cases j' with
        | zero =>
          simp only [List.getElem?_cons_zero, Option.some.injEq] at hj'
          subst hj'
          exact ⟨le_refl _, fun h => absurd h (lt_irrefl _)⟩
        | succ k =>
          simp only [List.getElem?_cons_succ] at hj'
          exact ⟨hall e' (List.getElem?_mem hj') hl', fun h => absurd h (Nat.not_lt_zero _)⟩
      · refine ⟨j + 1, e, by simpa using hj, by rw [hr]; congr 2; omega, hl, lt_trans hlt h0.2, ?_⟩
        intro j' e' hj' hl'
        cases j' with
        | zero =>
          simp only [List.getElem?_cons_zero, Option.some.injEq] at hj'
          subst hj'
          exact ⟨le_of_lt hlt, fun _ => hlt⟩
        | succ k =>
          simp only [List.getElem?_cons_succ] at hj'
          exact ⟨(hall k e' hj' hl').1, fun h => (hall k e' hj' hl').2 (by omega)⟩
    · rw [if_neg h0]
      have hc0 : lockable env m e0 = true → c ≤ dist env m (enemyPos e0) := by
        intro hl
        by_contra hlt
        exact h0 ⟨hl, lt_of_not_le hlt⟩
      rcases ih (i + 1) c l with ⟨hr, hall⟩ | ⟨j, e, hj, hr, hl, hlt, hall⟩
      · left
        refine ⟨hr, ?_⟩
        intro e' he' hl'
        rcases List.mem_cons.mp he' with rfl | hmem
        · exact hc0 hl'
        · exact hall e' hmem hl'
      · right
        refine ⟨j + 1, e, by simpa using hj, by rw [hr]; congr 2; omega, hl, hlt, ?_⟩
        intro j' e' hj' hl'
        cases j' with
        | zero =>
          simp only [List.getElem?_cons_zero, Option.some.injEq] at hj'
          subst hj'
          have := hc0 hl'
          exact ⟨le_of_lt (lt_of_lt_of_le hlt this), fun _ => lt_of_lt_of_le hlt this⟩
        | succ k =>
          simp only [List.getElem?_cons_succ] at hj'
          exact ⟨(hall k e' hj' hl').1, fun h => (hall k e' hj' hl').2 (by omega)⟩

/-- Where `size + 100` is at most 9999, a lockable enemy is below the initial
value 9999 of `closestDist`. -/
theorem lockable_lt_sentinel (env : Env) (m : Vec2) (e : Enemy)
    (hs : env.roundF (e.size + 100) ≤ 9999) (hl : lockable env m e = true) :
    dist env m (enemyPos e) < 9999 := by
  unfold lockable at hl
  simp only [Bool.and_eq_true, decide_eq_true_eq] at hl
  exact lt_of_lt_of_le hl.2 hs

/-- The index chosen by the lock-on loop. -/
theorem lockOn_spec (env : Env) (w : World)
    (hs : ∀ e ∈ w.enemies, env.roundF (e.size + 100) ≤ 9999) :
    (lockOn env w = none ↔ ∀ e ∈ w.enemies, lockable env (mousePos w) e = false) ∧
      ∀ i, lockOn env w = some i →
        ∃ e, w.enemies[i]? = some e ∧ lockable env (mousePos w) e = true ∧
          ∀ j e', w.enemies[j]? = some e' → lockable env (mousePos w) e' = true →
            dist env (mousePos w) (enemyPos e) ≤ dist env (mousePos w) (enemyPos e') ∧
              (dist env (mousePos w) (enemyPos e') = dist env (mousePos w) (enemyPos e) → i ≤ j) := by
  unfold lockOn
  rcases lockLoop_spec env (mousePos w) w.enemies 0 9999 none with
    ⟨hr, hall⟩ | ⟨j, e, hj, hr, hl, hlt, hall⟩
  · rw [hr]
    refine ⟨⟨fun _ e he => ?_, fun _ => rfl⟩, fun i hi => by simp at hi⟩
    rw [Bool.eq_false_iff]
    intro hn
    exact absurd (lockable_lt_sentinel env _ e (hs e he) hn) (not_lt.mpr (hall e he hn))
  · rw [hr]
    refine ⟨⟨fun h => by simp at h, fun h => ?_⟩, fun i hi => ?_⟩
    · have := h e (List.getElem?_mem hj)
      rw [Bool.eq_false_iff] at this
      exact absurd hl this
    · simp only [Option.some.injEq] at hi
      have hij : i = j := by omega
      subst hij
      refine ⟨e, hj, hl, ?_⟩
      intro j' e' hj' hl'
      refine ⟨(hall j' e' hj' hl').1, fun heq => ?_⟩
      by_contra hlt'
      have := (hall j' e' hj' hl').2 (by omega)
      rw [heq] at this
      exact lt_irrefl _ this

/-- C3 (amended): with every distance taken as the value that `dist` returns
(the Euclidean distance computed in floating point and rounded to `float`) and
`size + 100` as the `float` sum, and for enemies whose `size + 100` is at most
9999, the initial value of `closestDist` (sizes are spawned between 30 and
70): `triggerPunch` locks the active enemy with the smallest distance to the
pointer among all active enemies whose distance is less than `size + 100`,
the earliest in collection order among those at that smallest distance; it
locks no enemy exactly when no active enemy has a distance below
`size + 100`, and then the punch target is the pointer position. -/
theorem triggerPunch_locks_nearest (env : Env) (w : World)
    (hs : ∀ e ∈ w.enemies, env.roundF (e.size + 100) ≤ 9999) :
    ((triggerPunch env w).lockedEnemy = none ↔
        ∀ e ∈ w.enemies, lockable env (mousePos w) e = false) ∧
      ((triggerPunch env w).lockedEnemy = none → (triggerPunch env w).punchTarget = mousePos w) ∧
      ∀ i, (triggerPunch env w).lockedEnemy = some i →
        ∃ e, w.enemies[i]? = some e ∧ lockable env (mousePos w) e = true ∧
          ∀ j e', w.enemies[j]? = some e' → lockable env (mousePos w) e' = true →
            dist env (mousePos w) (enemyPos e) ≤ dist env (mousePos w) (enemyPos e') ∧
              (dist env (mousePos w) (enemyPos e') = dist env (mousePos w) (enemyPos e) → i ≤ j) := by
  rw [triggerPunch_lockedEnemy]
  refine ⟨(lockOn_spec env w hs).1, fun h => ?_, (lockOn_spec env w hs).2⟩
  unfold triggerPunch
  simp only [h]
  rfl

theorem triggerPunch_locks_nearest_witness :
    (∀ e ∈ worldTie.enemies, envSample.roundF (e.size + 100) ≤ 9999) ∧
      (triggerPunch envSample worldTie).lockedEnemy = some 0 ∧
      ∃ e, worldTie.enemies[0]? = some e ∧ lockable envSample (mousePos worldTie) e = true ∧
        ∀ j e', worldTie.enemies[j]? = some e' → lockable envSample (mousePos worldTie) e' = true →
          dist envSample (mousePos worldTie) (enemyPos e)
              ≤ dist envSample (mousePos worldTie) (enemyPos e') ∧
            (dist envSample (mousePos worldTie) (enemyPos e')
              = dist envSample (mousePos worldTie) (enemyPos e) → 0 ≤ j) :=
  ⟨by decide!, by decide!,
    (triggerPunch_locks_nearest envSample worldTie (by decide!)).2.2 0 (by decide!)⟩

/-- C3 as stated, with the distance of the plane, fails on the code, which
compares the values that `dist` returns in `float`.  With the pointer at
`(0, 0)` and two active enemies of size 40, the first at `(100, 1 / 128)` and
the second at `(100, 0)`, the second is strictly nearer, both values of `dist`
are `100.0f`, and `triggerPunch` locks the first.  With one active enemy of
size 40 at `(140 - 1 / 65536, 1 / 16)` the distance is less than
`size + 100 = 140`, the value of `dist` is `140.0f`, and nothing is locked. -/
theorem triggerPunch_float_distance :
    (worldNearTie.enemies.map (fun e => (enemyPos e, e.size, e.active))
          = [(⟨100, 1 / 128⟩, 40, true), (⟨100, 0⟩, 40, true)] ∧
        mousePos worldNearTie = ⟨0, 0⟩ ∧
        (100 - 0 : ℚ) ^ 2 + (0 - 0) ^ 2 < (100 - 0) ^ 2 + (1 / 128 - 0) ^ 2 ∧
        (100 - 0 : ℚ) ^ 2 + (1 / 128 - 0) ^ 2 < (40 + 100) ^ 2 ∧
        worldNearTie.enemies.map (fun e => dist envIEEE (mousePos worldNearTie) (enemyPos e))
          = [100, 100] ∧
        (triggerPunch envIEEE worldNearTie).lockedEnemy = some 0) ∧
      (worldRim.enemies.map (fun e => (enemyPos e, e.size, e.active))
          = [(⟨140 - 1 / 65536, 1 / 16⟩, 40, true)] ∧
        mousePos worldRim = ⟨0, 0⟩ ∧
        (140 - 1 / 65536 - 0 : ℚ) ^ 2 + (1 / 16 - 0) ^ 2 < (40 + 100) ^ 2 ∧
        envIEEE.roundF (140 - 1 / 65536) = 140 - 1 / 65536 ∧
        worldRim.enemies.map (fun e => dist envIEEE (mousePos worldRim) (enemyPos e)) = [140] ∧
        (triggerPunch envIEEE worldRim).lockedEnemy = none) := by
  decide!

/-! ### C2: the kills of checkCollision -/

theorem gloveHit_iff (env : Env) (w : World) (e : Enemy) :
    gloveHit env w e = true ↔ nearGlove env w (enemyPos e) e.size := by
  unfold gloveHit nearGlove enemyPos
  simp only [Bool.or_eq_true, decide_eq_true_eq]

/-- C13 (amended): an enemy that is active when its turn in the enemy loop of
`update` starts in world `w` is blocked (it ends deactivated, exactly 10
points are added to the score and shake is set to 5) if and only if the punch
state is Idle and the position of the enemy after its move is at distance less
than `size / 2 + 30 * scale` from the left glove or from the right glove, the
distance being the value that `dist` returns in `float` and the bound the
`float` sum.  When the punch state is Windup, Smash, Hold or Recover the enemy
is not blocked and its turn leaves the score as it is, the whole enemy loop
leaves the score as it is, and so does everything a tick does before the punch
state machine. -/
theorem block_iff_idle_near_glove (env : Env) (w : World) (e : Enemy) (ha : e.active = true) :
    (blocked env w e ↔ w.punchState = PunchState.IDLE ∧
        nearGlove env w (enemyPos (moveEnemy env w.frames w.WINDOW_WIDTH e)) e.size) ∧
      (w.punchState ≠ PunchState.IDLE →
        ¬ blocked env w e ∧ (updateEnemy env w e).2.score = w.score ∧
          (enemyPass env w).score = w.score ∧ (prePunch env w).score = w.score) := by
  have hg : gloveHit env w (moveEnemy env w.frames w.WINDOW_WIDTH e) = true ↔
      nearGlove env w (enemyPos (moveEnemy env w.frames w.WINDOW_WIDTH e)) e.size := by
    rw [gloveHit_iff, moveEnemy_size]
  constructor
  · rcases updateEnemy_block env w e ha with h | h
    · exact ⟨fun _ => ⟨h.1, hg.mp h.2.1⟩, fun _ => h.2.2⟩
    · constructor
      · intro hb
        have := hb.2.1
        rw [h.2] at this
        exact absurd this (by omega)
      · intro hc
        exact absurd ⟨hc.1, hg.mpr hc.2⟩ h.1
  · intro hi
    rcases updateEnemy_block env w e ha with h | h
    · exact absurd h.1 hi
    · refine ⟨?_, h.2, enemyPass_score_busy env w hi, ?_⟩
      · intro hb
        have := hb.2.1
        rw [h.2] at this
        exact absurd this (by omega)
      · rw [prePunch_spawn]
        have hp : (spawnStep env (preSpawn w)).punchState = w.punchState := by
          rw [(spawnStep_punch env _).punchState]
          unfold preSpawn
          rw [(movePlayer_punch _).punchState, (levelStep_punch _).punchState,
            (decayEffects_punch _).punchState]
        rw [afterSpawn_score, enemyPass_score_busy env _ (by rw [hp]; exact hi), spawnStep_score,
          preSpawn_score]

theorem block_iff_idle_near_glove_witness :
    (enemyStill 30 (-30) 30 2).active = true ∧
      enemyPos (moveEnemy envSample worldStart.frames worldStart.WINDOW_WIDTH
        (enemyStill 30 (-30) 30 2)) = ⟨30, -28⟩ ∧
      worldStart.leftArm = ⟨0, 0⟩ ∧
      blocked envSample worldStart (enemyStill 30 (-30) 30 2) ∧
      ¬ blocked envSample { worldStart with punchState := PunchState.HOLD }
        (enemyStill 30 (-30) 30 2) :=
  ⟨rfl, by decide!, by decide!,
    (block_iff_idle_near_glove envSample worldStart (enemyStill 30 (-30) 30 2) rfl).1.2
      ⟨by decide, by decide!⟩,
    by decide!⟩


/-- C13 as stated, with the distance of the plane, fails on the code, which
compares the value that `dist` returns in `float`.  In the Idle state at level
1 with the left glove at `(452, 648)`, an active enemy of size 30 is moved to
`(497 - 1 / 32768, 648 + 53 / 1024)`.  Its distance to the glove is less than
`size / 2 + 30 * scale = 45`, the value of `dist` is `45.0f`, and the enemy is
not blocked: it stays active and the tick leaves the score at 0. -/
theorem block_missed_at_rim :
    worldGraze.punchState = PunchState.IDLE ∧ worldGraze.level = 1 ∧
      worldGraze.gameState = GameState.PLAYING ∧ worldGraze.hitStop = 0 ∧
      worldGraze.leftArm = ⟨452, 648⟩ ∧ worldGraze.rightArm = ⟨572, 648⟩ ∧
      worldGraze.enemies = [enemyGraze] ∧ enemyGraze.active = true ∧ enemyGraze.size = 30 ∧
      (spawnStep envIEEE (preSpawn worldGraze)).enemies = [enemyGraze] ∧
      (spawnStep envIEEE (preSpawn worldGraze)).leftArm = ⟨452, 648⟩ ∧
      enemyPos (moveEnemy envIEEE (spawnStep envIEEE (preSpawn worldGraze)).frames
          (spawnStep envIEEE (preSpawn worldGraze)).WINDOW_WIDTH enemyGraze)
        = ⟨497 - 1 / 32768, 648 + 53 / 1024⟩ ∧
      envIEEE.roundF (497 - 1 / 32768) = 497 - 1 / 32768 ∧
      envIEEE.roundF (648 + 53 / 1024) = 648 + 53 / 1024 ∧
      (497 - 1 / 32768 - 452 : ℚ) ^ 2 + (648 + 53 / 1024 - 648) ^ 2
        < (30 / 2 + 30 * levelScale 1) ^ 2 ∧
      dist envIEEE ⟨497 - 1 / 32768, 648 + 53 / 1024⟩ ⟨452, 648⟩ = 45 ∧
      ¬ blocked envIEEE (spawnStep envIEEE (preSpawn worldGraze)) enemyGraze ∧
      (update envIEEE worldGraze).enemies.map (fun e => (enemyPos e, e.active))
        = [(⟨497 - 1 / 32768, 648 + 53 / 1024⟩, true)] ∧
      (update envIEEE worldGraze).score = 0 := by
  decide!

end SmashMaster
